import Mathlib

/-!
Verification development for the UAE telecom recommender system, a rule-based
multi-sector risk scoring engine.  The Python source is shallowly embedded:
real numbers become exact rationals, Python dictionaries become association
lists in insertion order, and the possibility of a sector scorer raising an
exception is represented with `Except`.  Creation timestamps
(`datetime.now().isoformat()`) are environment inputs and are not modelled.
-/

/-! ## String helpers

Python `needle in hay` substring tests, `str.lower()`, and
`str.replace(u, v)` for the single-character replacements the code uses. -/

/-- Python `needle in hay` on character lists: some tail of `hay` starts with
`needle`.  The empty needle is contained in everything. -/
def listContainsSub (needle : List Char) : List Char → Bool
  | [] => needle.isEmpty
  | c :: t => needle.isPrefixOf (c :: t) || listContainsSub needle t

/-- Python `needle in hay` for strings. -/
def strIn (needle hay : String) : Bool :=
  listContainsSub needle.data hay.data

/-- Python `s.replace('_', ' ')`. -/
def underscoreToSpace (s : String) : String :=
  String.mk (s.data.map fun c => if c = '_' then ' ' else c)

/-- Python `any(kw in s for kw in kws)`. -/
def anyKeywordIn (kws : List String) (s : String) : Bool :=
  kws.any fun kw => strIn kw s

/-! ## Association-list dictionaries

Python `dict` in insertion order: lookup finds the first (unique) key,
assignment overwrites in place or appends. -/

/-- Lookup in an insertion-ordered dictionary. -/
def dictFind {β : Type} : List (String × β) → String → Option β
  | [], _ => none
  | (k', v) :: t, k => if k' = k then some v else dictFind t k

/-- Python dict assignment `d[k] = v`: overwrite in place, else append. -/
def dictInsert {β : Type} : List (String × β) → String → β → List (String × β)
  | [], k, v => [(k, v)]
  | (k', v') :: t, k, v =>
    if k' = k then (k, v) :: t else (k', v') :: dictInsert t k v

/-! ## Data model (`sectors/base_sector.py`) -/

/-- `ProjectData` dataclass from `base_sector.py`. -/
structure ProjectData where
  project_id : String
  sector_id : String
  description : String
  budget : ℚ
  timeline_days : ℤ
  complexity_score : ℚ
  stakeholders : List String
  technologies : List String
  dependencies : List String
  historical_risks : Option (List String) := none

/-- `RiskAssessment` dataclass from `base_sector.py` (timestamp omitted:
it is an environment-supplied creation instant). -/
structure RiskAssessment where
  sector_id : String
  risk_level : ℚ
  risk_factors : List String
  mitigation_strategies : List String
  confidence : ℚ
deriving DecidableEq

/-- One entry of the `sectors` mapping of the configuration file:
`name`, `description`, `risk_factors`, `weight`. -/
structure SectorConfig where
  name : String
  description : String
  risk_factors : List String
  weight : ℚ

/-- Python truthiness of the optional `historical_risks` list:
`None` and `[]` are falsy. -/
def truthyOpt (o : Option (List String)) : Bool :=
  match o with
  | none => false
  | some l => !l.isEmpty

/-! ## Shared base-sector helpers (`sectors/base_sector.py`) -/

/-- `BaseSector.calculate_base_risk_score`: weighted sum of four normalized
factors, clamped with `np.clip(_, 0.0, 1.0)`. -/
def calculate_base_risk_score (pd : ProjectData) : ℚ :=
  let budget_factor := min (pd.budget / 1000000) 1
  let timeline_factor := min ((pd.timeline_days : ℚ) / 365) 1
  let complexity_factor := pd.complexity_score
  let dependency_factor := min ((pd.dependencies.length : ℚ) / 10) 1
  let base_score :=
    budget_factor * 0.25 +
    timeline_factor * 0.25 +
    complexity_factor * 0.35 +
    dependency_factor * 0.15
  min (max base_score 0) 1

/-- `BaseSector.get_common_mitigation_strategies`. -/
def get_common_mitigation_strategies : List String :=
  ["Regular risk monitoring and assessment",
   "Stakeholder communication and alignment",
   "Contingency planning and backup procedures",
   "Vendor and supplier diversification",
   "Staff training and skill development",
   "Documentation and knowledge management",
   "Quality assurance and testing protocols",
   "Budget reserves for unexpected costs",
   "Timeline buffers for critical activities",
   "Compliance monitoring and reporting"]

/-- `BaseSector.calculate_confidence_score`: +0.2 for each of five data
completeness checks (Python truthiness on `description`, `technologies`,
`historical_risks`). -/
def calculate_confidence_score (pd : ProjectData) : ℚ :=
  (if pd.description ≠ "" then (0.2 : ℚ) else 0) +
  (if pd.budget > 0 then (0.2 : ℚ) else 0) +
  (if pd.timeline_days > 0 then (0.2 : ℚ) else 0) +
  (if !pd.technologies.isEmpty then (0.2 : ℚ) else 0) +
  (if truthyOpt pd.historical_risks then (0.2 : ℚ) else 0)

/-! ## Project-data validation (`core/risk_manager.py`) -/

/-- `RiskManager.validate_project_data`: collects one message per violated
field, in source order, empty when the data is valid. -/
def validate_project_data (pd : ProjectData) : List String :=
  (if pd.project_id = "" then ["Project ID is required"] else []) ++
  (if pd.description = "" then ["Project description is required"] else []) ++
  (if pd.budget ≤ 0 then ["Project budget must be greater than 0"] else []) ++
  (if pd.timeline_days ≤ 0 then ["Project timeline must be greater than 0 days"] else []) ++
  (if ¬ (0 ≤ pd.complexity_score ∧ pd.complexity_score ≤ 1) then
    ["Complexity score must be between 0.0 and 1.0"] else []) ++
  (if pd.technologies.isEmpty then ["At least one technology should be specified"] else []) ++
  (if pd.stakeholders.isEmpty then ["At least one stakeholder should be specified"] else [])

/-! ## Network Infrastructure sector (`sectors/network_infrastructure.py`) -/

namespace NetworkInfrastructure

/-- `self.infrastructure_components` with their risk multipliers. -/
def infrastructure_components : List (String × ℚ) :=
  [("fiber_optic", 0.3), ("cellular_towers", 0.4), ("data_centers", 0.5),
   ("switches_routers", 0.4), ("transmission_equipment", 0.3),
   ("power_systems", 0.6), ("cooling_systems", 0.4), ("security_systems", 0.3)]

/-- `self.technology_age_risks` bucket values. -/
def technology_age_risks : List (String × ℚ) :=
  [("legacy", 0.8), ("mature", 0.4), ("current", 0.2), ("emerging", 0.6)]

/-- `_assess_infrastructure_risk`: sum matched component multipliers over all
technologies, scale by `1 + complexity*0.5`, average over the 8 components. -/
def assess_infrastructure_risk (pd : ProjectData) : ℚ :=
  let risk_score := pd.technologies.foldl (fun acc tech =>
    let tech_lower := tech.toLower
    infrastructure_components.foldl (fun acc2 cm =>
      if strIn (underscoreToSpace cm.1) tech_lower || strIn cm.1 tech_lower then
        acc2 + cm.2
      else acc2) acc) 0
  let complexity_multiplier := 1 + pd.complexity_score * 0.5
  let risk_score := risk_score * complexity_multiplier
  min (risk_score / (infrastructure_components.length : ℚ)) 1

/-- `_assess_environmental_risk`: UAE baseline 0.4, timeline exposure,
outdoor-keyword bonus. -/
def assess_environmental_risk (pd : ProjectData) : ℚ :=
  let base_environmental_risk : ℚ := 0.4
  let timeline_factor := min ((pd.timeline_days : ℚ) / 365) 2
  let outdoor_keywords := ["tower", "outdoor", "external", "field", "installation"]
  let outdoor_risk := outdoor_keywords.foldl (fun acc kw =>
    if strIn kw pd.description.toLower then acc + 0.2 else acc) 0
  min (base_environmental_risk + timeline_factor * 0.1 + outdoor_risk) 1

/-- Age-bucket contribution of one technology string in
`_assess_technology_risk`. -/
def techAgeContribution (tech_lower : String) : ℚ :=
  if anyKeywordIn ["legacy", "old", "deprecated"] tech_lower then
    0.8
  else if anyKeywordIn ["new", "emerging", "beta", "cutting-edge"] tech_lower then
    0.6
  else if anyKeywordIn ["5g", "ai", "iot", "edge"] tech_lower then
    0.6
  else
    0.2

/-- `_assess_technology_risk`: age-bucket sum averaged by technology count
(`max(len, 1)` guards the division). -/
def assess_technology_risk (pd : ProjectData) : ℚ :=
  let technology_risk := pd.technologies.foldl (fun acc tech =>
    acc + techAgeContribution tech.toLower) 0
  min (technology_risk / (max pd.technologies.length 1 : ℕ)) 1

/-- `_assess_capacity_risk`: base 0.3 plus budget, dependency and keyword
bonuses. -/
def assess_capacity_risk (pd : ProjectData) : ℚ :=
  let capacity_risk : ℚ := 0.3
  let capacity_risk := if pd.budget > 5000000 then capacity_risk + 0.2 else capacity_risk
  let capacity_risk :=
    if pd.dependencies.length > 5 then capacity_risk + 0.3 else capacity_risk
  let capacity_keywords := ["scaling", "expansion", "upgrade", "capacity", "bandwidth"]
  let capacity_risk := capacity_keywords.foldl (fun acc kw =>
    if strIn kw pd.description.toLower then acc + 0.1 else acc) capacity_risk
  min capacity_risk 1

/-- `_identify_active_risk_factors`: threshold-selected labels plus the
always-included "Network congestion". -/
def identify_active_risk_factors (infra_risk env_risk tech_risk capacity_risk : ℚ) :
    List String :=
  (if infra_risk > 0.5 then ["Equipment failure"] else []) ++
  (if env_risk > 0.4 then ["Infrastructure damage"] else []) ++
  (if tech_risk > 0.5 then ["Technology obsolescence"] else []) ++
  (if capacity_risk > 0.4 then ["Capacity limitations"] else []) ++
  ["Network congestion"]

/-- `_get_mitigation_strategies`: common strategies, sector-specific ones
appended, truncated to 10. -/
def get_mitigation_strategies : List String :=
  (get_common_mitigation_strategies ++
   ["Implement redundant network paths and equipment",
    "Regular maintenance and equipment health monitoring",
    "Environmental protection systems for outdoor equipment",
    "Capacity planning and traffic management",
    "Technology refresh cycles and upgrade planning",
    "Network performance monitoring and alerting",
    "Emergency response procedures for infrastructure failures",
    "Backup power systems and uninterruptible power supplies",
    "Climate control systems for equipment rooms",
    "Network security hardening and access controls"]).take 10

/-- `NetworkInfrastructureSector.assess_risk`. -/
def assess_risk (sector_id : String) (cfg : SectorConfig) (pd : ProjectData) :
    RiskAssessment :=
  let base_risk := calculate_base_risk_score pd
  let infrastructure_risk := assess_infrastructure_risk pd
  let environmental_risk := assess_environmental_risk pd
  let technology_risk := assess_technology_risk pd
  let capacity_risk := assess_capacity_risk pd
  let total_risk :=
    base_risk * 0.3 +
    infrastructure_risk * 0.25 +
    environmental_risk * 0.2 +
    technology_risk * 0.15 +
    capacity_risk * 0.1
  let weighted_risk := min (total_risk * cfg.weight * 10) 1
  { sector_id := sector_id
    risk_level := weighted_risk
    risk_factors := identify_active_risk_factors
      infrastructure_risk environmental_risk technology_risk capacity_risk
    mitigation_strategies := get_mitigation_strategies
    confidence := calculate_confidence_score pd }

/-- `NetworkInfrastructureSector.get_recommendations`: three severity bands. -/
def get_recommendations (ra : RiskAssessment) : List String :=
  if ra.risk_level > 0.7 then
    ["Conduct immediate infrastructure vulnerability assessment",
     "Implement comprehensive disaster recovery procedures",
     "Establish 24/7 network operations center monitoring"]
  else if ra.risk_level > 0.5 then
    ["Schedule preventive maintenance for critical equipment",
     "Review and update capacity planning models",
     "Implement enhanced environmental monitoring"]
  else
    ["Continue regular monitoring and maintenance schedules",
     "Plan for future technology upgrades",
     "Maintain current redundancy levels"]

end NetworkInfrastructure

/-! ## Cybersecurity sector (`sectors/cybersecurity.py`) -/

namespace Cybersecurity

/-- `self.security_controls` with their risk-reduction effectiveness. -/
def security_controls : List (String × ℚ) :=
  [("firewall", 0.3), ("intrusion_detection", 0.4), ("encryption", 0.5),
   ("multi_factor_authentication", 0.4), ("security_training", 0.3),
   ("vulnerability_management", 0.5), ("backup_systems", 0.4),
   ("incident_response", 0.4), ("access_controls", 0.4),
   ("security_monitoring", 0.5)]

/-- `self.technology_risks` keyword weights. -/
def technology_risks : List (String × ℚ) :=
  [("cloud_services", 0.4), ("iot_devices", 0.6), ("mobile_apps", 0.5),
   ("apis", 0.5), ("third_party_integrations", 0.6), ("legacy_systems", 0.8)]

/-- `_assess_threat_landscape`: base 0.5 plus keyword, budget and timeline
bonuses. -/
def assess_threat_landscape (pd : ProjectData) : ℚ :=
  let threat_score : ℚ := 0.5
  let high_risk_keywords := ["internet-facing", "public", "external", "customer-facing"]
  let threat_score := high_risk_keywords.foldl (fun acc kw =>
    if strIn kw pd.description.toLower then acc + 0.2 else acc) threat_score
  let threat_score :=
    if pd.budget > 10000000 then threat_score + 0.2
    else if pd.budget > 5000000 then threat_score + 0.1
    else threat_score
  let threat_score := if pd.timeline_days > 365 then threat_score + 0.1 else threat_score
  min threat_score 1

/-- `_assess_compliance_risk`: base 0.6 plus compliance and international
keyword bonuses. -/
def assess_compliance_risk (pd : ProjectData) : ℚ :=
  let compliance_risk : ℚ := 0.6
  let compliance_keywords :=
    ["personal data", "customer information", "financial", "critical infrastructure"]
  let compliance_risk := compliance_keywords.foldl (fun acc kw =>
    if strIn kw pd.description.toLower then acc + 0.2 else acc) compliance_risk
  let international_keywords := ["international", "cross-border", "global", "offshore"]
  let compliance_risk := international_keywords.foldl (fun acc kw =>
    if strIn kw pd.description.toLower then acc + 0.3 else acc) compliance_risk
  min compliance_risk 1

/-- `_assess_technology_security_risk`: matched risky-technology weights plus
emerging-technology bonus, averaged by `max(len(technologies), 1)`. -/
def assess_technology_security_risk (pd : ProjectData) : ℚ :=
  let tech_risk := pd.technologies.foldl (fun acc tech =>
    let tech_lower := tech.toLower
    technology_risks.foldl (fun acc2 rt =>
      if strIn (underscoreToSpace rt.1) tech_lower || strIn rt.1 tech_lower then
        acc2 + rt.2
      else acc2) acc) 0
  let emerging_keywords := ["ai", "machine learning", "blockchain", "5g", "edge computing"]
  let tech_risk := emerging_keywords.foldl (fun acc kw =>
    if pd.technologies.any (fun tech => strIn kw tech.toLower) then acc + 0.4 else acc)
    tech_risk
  min (tech_risk / (max pd.technologies.length 1 : ℕ)) 1

/-- `_assess_data_protection_risk`: base 0.3 plus keyword, stakeholder-count
and dependency-count bonuses. -/
def assess_data_protection_risk (pd : ProjectData) : ℚ :=
  let data_risk : ℚ := 0.3
  let data_keywords :=
    ["database", "customer data", "personal information", "analytics", "reporting"]
  let data_risk := data_keywords.foldl (fun acc kw =>
    if strIn kw pd.description.toLower then acc + 0.2 else acc) data_risk
  let data_risk := if pd.stakeholders.length > 10 then data_risk + 0.2 else data_risk
  let data_risk := if pd.dependencies.length > 5 then data_risk + 0.1 else data_risk
  min data_risk 1

/-- `_assess_security_controls`: for every (technology, control) pair, a
control matched in the description or in the technology counts once; the
result is the average effectiveness of the matches, or the 0.1 floor when
none matched.  The pair `(score, found)` mirrors the two Python
accumulators. -/
def assess_security_controls (pd : ProjectData) : ℚ :=
  let description_lower := pd.description.toLower
  let sf := pd.technologies.foldl (fun (p : ℚ × ℕ) tech =>
    let tech_lower := tech.toLower
    security_controls.foldl (fun (p2 : ℚ × ℕ) ce =>
      let control_terms := underscoreToSpace ce.1
      if strIn control_terms description_lower || strIn control_terms tech_lower ||
          strIn ce.1 tech_lower then
        (p2.1 + ce.2, p2.2 + 1)
      else p2) p) ((0 : ℚ), (0 : ℕ))
  if sf.2 > 0 then min (sf.1 / (sf.2 : ℚ)) 1 else 0.1

/-- `_identify_active_risk_factors`: threshold-selected labels, the baseline
"Insider threats", then `list(set(...))`.  The Python set iteration order is
unspecified (hash-randomized); the embedding deduplicates keeping first
occurrences, which fixes one arbitrary-but-deterministic order. -/
def identify_active_risk_factors (threat_risk compliance_risk tech_risk data_risk : ℚ) :
    List String :=
  ((if threat_risk > 0.6 then ["Cyber attacks", "System vulnerabilities"] else []) ++
   (if compliance_risk > 0.6 then ["Compliance violations"] else []) ++
   (if tech_risk > 0.5 then ["System vulnerabilities"] else []) ++
   (if data_risk > 0.5 then ["Data breaches"] else []) ++
   ["Insider threats"]).eraseDups

/-- `_get_mitigation_strategies`: common strategies, cybersecurity ones
appended, truncated to 12. -/
def get_mitigation_strategies : List String :=
  (get_common_mitigation_strategies ++
   ["Implement multi-layered security controls (Defense in Depth)",
    "Conduct regular security assessments and penetration testing",
    "Establish Security Operations Center (SOC) monitoring",
    "Deploy advanced threat detection and response systems",
    "Implement zero-trust network architecture",
    "Conduct regular security awareness training for all staff",
    "Establish incident response and business continuity plans",
    "Implement data encryption at rest and in transit",
    "Deploy endpoint detection and response (EDR) solutions",
    "Maintain up-to-date vulnerability management program",
    "Implement privileged access management controls",
    "Establish secure software development lifecycle (SDLC)",
    "Deploy network segmentation and micro-segmentation",
    "Implement continuous compliance monitoring",
    "Establish threat intelligence and information sharing"]).take 12

/-- `CybersecuritySector.assess_risk`: weighted combination, reduced
multiplicatively by controls effectiveness, then scaled by
`weight * 10` and clamped. -/
def assess_risk (sector_id : String) (cfg : SectorConfig) (pd : ProjectData) :
    RiskAssessment :=
  let base_risk := calculate_base_risk_score pd
  let threat_risk := assess_threat_landscape pd
  let compliance_risk := assess_compliance_risk pd
  let technology_risk := assess_technology_security_risk pd
  let data_risk := assess_data_protection_risk pd
  let controls_effectiveness := assess_security_controls pd
  let total_risk :=
    base_risk * 0.2 +
    threat_risk * 0.25 +
    compliance_risk * 0.2 +
    technology_risk * 0.2 +
    data_risk * 0.15
  let adjusted_risk := total_risk * (1 - controls_effectiveness * 0.5)
  let weighted_risk := min (adjusted_risk * cfg.weight * 10) 1
  { sector_id := sector_id
    risk_level := weighted_risk
    risk_factors := identify_active_risk_factors
      threat_risk compliance_risk technology_risk data_risk
    mitigation_strategies := get_mitigation_strategies
    confidence := calculate_confidence_score pd }

/-- `CybersecuritySector.get_recommendations`: four severity bands, capped
at 8. -/
def get_recommendations (ra : RiskAssessment) : List String :=
  (if ra.risk_level > 0.8 then
    ["URGENT: Conduct immediate security risk assessment",
     "Implement emergency incident response procedures",
     "Deploy advanced security monitoring and alerting",
     "Engage external cybersecurity expertise",
     "Review and strengthen access controls immediately"]
  else if ra.risk_level > 0.6 then
    ["Conduct comprehensive security audit",
     "Implement additional security controls",
     "Enhance security monitoring capabilities",
     "Provide targeted security training",
     "Review compliance with UAE regulations"]
  else if ra.risk_level > 0.4 then
    ["Maintain current security posture",
     "Schedule regular security reviews",
     "Update security policies and procedures",
     "Continue security awareness programs"]
  else
    ["Continue baseline security practices",
     "Monitor for emerging threats",
     "Maintain security documentation"]).take 8

end Cybersecurity

/-! ## Regulatory Compliance sector (`sectors/regulatory_compliance.py`) -/

namespace RegulatoryCompliance

/-- `self.regulatory_frameworks`: (framework, risk_level, keywords). -/
def regulatory_frameworks : List (String × ℚ × List String) :=
  [("tra_telecom_regulations", (0.8,
     ["telecom", "telecommunication", "network", "spectrum", "licensing"])),
   ("uae_cyber_security_law", (0.9,
     ["cybersecurity", "information security", "data protection", "cyber"])),
   ("uae_data_protection_law", (0.8,
     ["personal data", "privacy", "data processing", "customer information"])),
   ("consumer_protection_law", (0.6,
     ["consumer", "customer service", "billing", "complaints"])),
   ("federal_law_competition", (0.5,
     ["competition", "market", "pricing", "anti-monopoly"])),
   ("anti_money_laundering", (0.7,
     ["aml", "financial", "payment", "money laundering", "sanctions"])),
   ("critical_infrastructure", (0.9,
     ["critical infrastructure", "national security", "essential services"]))]

/-- `_assess_regulatory_framework_risk`: sum of risk levels of applicable
frameworks (a framework applies when any of its keywords occurs in the
description), budget and stakeholder bonuses, averaged by
`max(applicable_frameworks, 1)`.  The pair mirrors the Python accumulators
`(framework_risk, applicable_frameworks)`. -/
def assess_regulatory_framework_risk (pd : ProjectData) : ℚ :=
  let description_lower := pd.description.toLower
  let fa := regulatory_frameworks.foldl (fun (p : ℚ × ℕ) fw =>
    if fw.2.2.any (fun kw => strIn kw description_lower) then
      (p.1 + fw.2.1, p.2 + 1)
    else p) ((0 : ℚ), (0 : ℕ))
  let framework_risk :=
    if pd.budget > 50000000 then fa.1 + 0.3
    else if pd.budget > 20000000 then fa.1 + 0.2
    else fa.1
  let framework_risk :=
    if pd.stakeholders.length > 15 then framework_risk + 0.2 else framework_risk
  min (framework_risk / (max fa.2 1 : ℕ)) 1

/-- `_assess_license_compliance_risk`: base 0.4 plus license, international
and long-timeline bonuses. -/
def assess_license_compliance_risk (pd : ProjectData) : ℚ :=
  let license_risk : ℚ := 0.4
  let license_keywords :=
    ["new service", "service launch", "spectrum", "frequency",
     "infrastructure deployment", "network expansion", "interconnection"]
  let license_risk := license_keywords.foldl (fun acc kw =>
    if strIn kw pd.description.toLower then acc + 0.3 else acc) license_risk
  let international_keywords := ["international", "cross-border", "submarine cable", "satellite"]
  let license_risk := international_keywords.foldl (fun acc kw =>
    if strIn kw pd.description.toLower then acc + 0.4 else acc) license_risk
  let license_risk := if pd.timeline_days > 730 then license_risk + 0.2 else license_risk
  min license_risk 1

/-- `_assess_data_protection_risk`: base 0.3 plus data, customer-facing and
cross-border-dependency bonuses. -/
def assess_data_protection_risk (pd : ProjectData) : ℚ :=
  let data_risk : ℚ := 0.3
  let data_keywords :=
    ["customer data", "personal information", "data collection",
     "data processing", "analytics", "artificial intelligence",
     "machine learning", "profiling", "behavioral analysis"]
  let data_risk := data_keywords.foldl (fun acc kw =>
    if strIn kw pd.description.toLower then acc + 0.2 else acc) data_risk
  let customer_keywords := ["customer portal", "mobile app", "web service", "self-service"]
  let data_risk := customer_keywords.foldl (fun acc kw =>
    if strIn kw pd.description.toLower then acc + 0.3 else acc) data_risk
  let data_risk :=
    if pd.dependencies.any (fun dep =>
        strIn "international" dep.toLower || strIn "offshore" dep.toLower) then
      data_risk + 0.4
    else data_risk
  min data_risk 1

/-- `_assess_audit_readiness_risk`: base 0.5 plus complexity,
dependency-count and per-technology emerging-tech bonuses. -/
def assess_audit_readiness_risk (pd : ProjectData) : ℚ :=
  let audit_risk : ℚ := 0.5
  let audit_risk := if pd.complexity_score > 0.7 then audit_risk + 0.2 else audit_risk
  let audit_risk := if pd.dependencies.length > 8 then audit_risk + 0.2 else audit_risk
  let emerging_tech_keywords := ["ai", "5g", "iot", "blockchain", "edge computing"]
  let audit_risk := pd.technologies.foldl (fun acc tech =>
    if anyKeywordIn emerging_tech_keywords tech.toLower then acc + 0.1 else acc) audit_risk
  min audit_risk 1

/-- `_assess_policy_compliance_risk`: base 0.4 plus stakeholder-count bonus
and a bonus when any historical risk mentions compliance or policy. -/
def assess_policy_compliance_risk (pd : ProjectData) : ℚ :=
  let policy_risk : ℚ := 0.4
  let policy_risk := if pd.stakeholders.length > 10 then policy_risk + 0.2 else policy_risk
  let policy_risk :=
    if truthyOpt pd.historical_risks then
      let hist := pd.historical_risks.getD []
      let compliance_history := hist.filter (fun risk =>
        strIn "compliance" risk.toLower || strIn "policy" risk.toLower)
      if !compliance_history.isEmpty then policy_risk + 0.3 else policy_risk
    else policy_risk
  min policy_risk 1

/-- `_identify_active_risk_factors`: threshold-selected labels plus the
always-included "Policy non-compliance". -/
def identify_active_risk_factors (framework_risk license_risk data_risk audit_risk : ℚ) :
    List String :=
  (if framework_risk > 0.6 then ["Regulatory violations"] else []) ++
  (if license_risk > 0.5 then ["License compliance"] else []) ++
  (if data_risk > 0.5 then ["Data protection breaches"] else []) ++
  (if audit_risk > 0.5 then ["Audit failures"] else []) ++
  ["Policy non-compliance"]

/-- `_get_mitigation_strategies`: common strategies, compliance ones
appended, truncated to 12. -/
def get_mitigation_strategies : List String :=
  (get_common_mitigation_strategies ++
   ["Establish dedicated compliance officer and team",
    "Conduct regular regulatory impact assessments",
    "Implement compliance monitoring and reporting systems",
    "Maintain current regulatory knowledge and tracking",
    "Establish relationships with regulatory authorities",
    "Conduct pre-launch compliance reviews",
    "Implement data protection impact assessments (DPIA)",
    "Establish audit trail and documentation procedures",
    "Create compliance training programs for staff",
    "Implement automated compliance monitoring tools",
    "Establish legal review processes for new initiatives",
    "Maintain compliance risk register and mitigation plans",
    "Conduct regular internal compliance audits",
    "Establish incident response procedures for compliance breaches",
    "Implement change management for regulatory updates"]).take 12

/-- `RegulatoryComplianceSector.assess_risk`. -/
def assess_risk (sector_id : String) (cfg : SectorConfig) (pd : ProjectData) :
    RiskAssessment :=
  let base_risk := calculate_base_risk_score pd
  let regulatory_framework_risk := assess_regulatory_framework_risk pd
  let license_compliance_risk := assess_license_compliance_risk pd
  let data_protection_risk := assess_data_protection_risk pd
  let audit_risk := assess_audit_readiness_risk pd
  let policy_compliance_risk := assess_policy_compliance_risk pd
  let total_risk :=
    base_risk * 0.15 +
    regulatory_framework_risk * 0.25 +
    license_compliance_risk * 0.2 +
    data_protection_risk * 0.2 +
    audit_risk * 0.1 +
    policy_compliance_risk * 0.1
  let weighted_risk := min (total_risk * cfg.weight * 10) 1
  { sector_id := sector_id
    risk_level := weighted_risk
    risk_factors := identify_active_risk_factors
      regulatory_framework_risk license_compliance_risk data_protection_risk audit_risk
    mitigation_strategies := get_mitigation_strategies
    confidence := calculate_confidence_score pd }

/-- `RegulatoryComplianceSector.get_recommendations`: four severity bands,
capped at 6. -/
def get_recommendations (ra : RiskAssessment) : List String :=
  (if ra.risk_level > 0.8 then
    ["URGENT: Conduct immediate compliance risk assessment",
     "Engage legal counsel for regulatory review",
     "Implement emergency compliance monitoring",
     "Contact relevant regulatory authorities for guidance",
     "Suspend project activities until compliance confirmed"]
  else if ra.risk_level > 0.6 then
    ["Conduct comprehensive regulatory compliance review",
     "Engage compliance consultants for specialized expertise",
     "Implement enhanced compliance monitoring",
     "Review and update compliance policies and procedures",
     "Provide compliance training for project team"]
  else if ra.risk_level > 0.4 then
    ["Schedule regular compliance reviews",
     "Update compliance documentation",
     "Monitor regulatory changes and updates",
     "Maintain current compliance certifications"]
  else
    ["Continue baseline compliance activities",
     "Monitor for regulatory updates",
     "Maintain compliance documentation"]).take 6

end RegulatoryCompliance

/-! ## Sector objects and the risk manager (`core/risk_manager.py`) -/

/-- A sector object as the `RiskManager` sees it: the attributes read by the
aggregator plus the two capability methods.  `assess_risk` returns
`Except` so that a scorer that raises an exception can be represented
(`.error`); the three concrete scorers and the placeholder are total and
always return `.ok`. -/
structure Sector where
  sector_id : String
  name : String
  weight : ℚ
  risk_factors : List String
  assess_risk : ProjectData → Except String RiskAssessment
  get_recommendations : RiskAssessment → List String

/-- `RiskManager._create_placeholder_sector`: placeholder assessment based on
project complexity, first three configured risk factors, confidence 0.5. -/
def placeholderSector (sector_id : String) (cfg : SectorConfig) : Sector :=
  { sector_id := sector_id
    name := cfg.name
    weight := cfg.weight
    risk_factors := cfg.risk_factors
    assess_risk := fun pd =>
      .ok { sector_id := sector_id
            risk_level := min (pd.complexity_score * 0.8) 1
            risk_factors := cfg.risk_factors.take 3
            mitigation_strategies :=
              ["Conduct " ++ cfg.name.toLower ++ " risk assessment",
               "Implement " ++ cfg.name.toLower ++ " best practices",
               "Monitor " ++ cfg.name.toLower ++ " key metrics"]
            confidence := 0.5 }
    get_recommendations := fun _ =>
      ["Develop comprehensive " ++ cfg.name.toLower ++ " strategy",
       "Implement " ++ cfg.name.toLower ++ " monitoring",
       "Regular " ++ cfg.name.toLower ++ " reviews"] }

/-- `RiskManager._initialize_sectors` dispatch for one configured sector:
the three implemented sector classes, placeholder otherwise. -/
def mkSector (sector_id : String) (cfg : SectorConfig) : Sector :=
  if sector_id = "network_infrastructure" then
    { sector_id := sector_id, name := cfg.name, weight := cfg.weight
      risk_factors := cfg.risk_factors
      assess_risk := fun pd => .ok (NetworkInfrastructure.assess_risk sector_id cfg pd)
      get_recommendations := NetworkInfrastructure.get_recommendations }
  else if sector_id = "cybersecurity" then
    { sector_id := sector_id, name := cfg.name, weight := cfg.weight
      risk_factors := cfg.risk_factors
      assess_risk := fun pd => .ok (Cybersecurity.assess_risk sector_id cfg pd)
      get_recommendations := Cybersecurity.get_recommendations }
  else if sector_id = "regulatory_compliance" then
    { sector_id := sector_id, name := cfg.name, weight := cfg.weight
      risk_factors := cfg.risk_factors
      assess_risk := fun pd => .ok (RegulatoryCompliance.assess_risk sector_id cfg pd)
      get_recommendations := RegulatoryCompliance.get_recommendations }
  else
    placeholderSector sector_id cfg

/-- The `RiskManager`: its `self.sectors` dictionary, in configuration
order. -/
structure RiskManager where
  sectors : List (String × Sector)

/-- `RiskManager.__init__` over a configuration: one sector object per
configured sector, via the `_initialize_sectors` dispatch. -/
def mkRiskManager (cfgs : List (String × SectorConfig)) : RiskManager :=
  { sectors := cfgs.map fun e => (e.1, mkSector e.1 e.2) }

/-- `RiskManager._create_fallback_assessment`: medium risk, the single risk
factor "Assessment error occurred", very low confidence. -/
def create_fallback_assessment (sec : Sector) : RiskAssessment :=
  { sector_id := sec.sector_id
    risk_level := 0.5
    risk_factors := ["Assessment error occurred"]
    mitigation_strategies :=
      ["Review " ++ sec.name ++ " assessment methodology",
       "Conduct manual risk evaluation",
       "Seek expert consultation"]
    confidence := 0.1 }

/-- `RiskManager.assess_project_risk`: iterate the requested sector ids (all
configured sectors when the filter is `none`), silently skip unknown ids,
catch a raising scorer and substitute the fallback assessment.  The result
is the `risk_assessments` dictionary in insertion order. -/
def assess_project_risk (rm : RiskManager) (pd : ProjectData)
    (sectors_to_assess : Option (List String)) : List (String × RiskAssessment) :=
  let ids := sectors_to_assess.getD (rm.sectors.map Prod.fst)
  ids.foldl (fun acc sector_id =>
    match dictFind rm.sectors sector_id with
    | none => acc
    | some sec =>
      match sec.assess_risk pd with
      | .ok ra => dictInsert acc sector_id ra
      | .error _ => dictInsert acc sector_id (create_fallback_assessment sec)) []

/-- `RiskManager.calculate_overall_risk`: weighted-average accumulation over
the assessments dictionary, neutral 0.5 default, clamped to at most 1. -/
def calculate_overall_risk (rm : RiskManager)
    (risk_assessments : List (String × RiskAssessment)) : ℚ :=
  if risk_assessments.isEmpty then 0.5
  else
    let wt := risk_assessments.foldl (fun (p : ℚ × ℚ) e =>
      match dictFind rm.sectors e.1 with
      | some sec => (p.1 + e.2.risk_level * sec.weight, p.2 + sec.weight)
      | none => p) ((0 : ℚ), (0 : ℚ))
    if wt.2 > 0 then min (wt.1 / wt.2) 1 else 0.5

/-- The flattened `all_risks` list of `get_top_risk_factors`: one
`(risk_factor, sector_name, risk_level)` triple per factor label of each
assessed sector that is known to the manager. -/
def all_risk_triples (rm : RiskManager)
    (risk_assessments : List (String × RiskAssessment)) :
    List (String × String × ℚ) :=
  risk_assessments.foldl (fun acc e =>
    match dictFind rm.sectors e.1 with
    | some sec => acc ++ e.2.risk_factors.map (fun f => (f, sec.name, e.2.risk_level))
    | none => acc) []

/-- Descending stable sort by the third component, as Python
`list.sort(key=lambda x: x[2], reverse=True)`. -/
def sortByRiskDesc (l : List (String × String × ℚ)) : List (String × String × ℚ) :=
  l.mergeSort (fun x y => decide (y.2.2 ≤ x.2.2))

/-- `RiskManager.get_top_risk_factors`: flatten, stable-sort descending by
risk level, truncate to `limit`. -/
def get_top_risk_factors (rm : RiskManager)
    (risk_assessments : List (String × RiskAssessment)) (limit : ℕ) :
    List (String × String × ℚ) :=
  (sortByRiskDesc (all_risk_triples rm risk_assessments)).take limit

/-- The flattened `all_recommendations` list of
`get_priority_recommendations`. -/
def all_recommendation_triples (rm : RiskManager)
    (risk_assessments : List (String × RiskAssessment)) :
    List (String × String × ℚ) :=
  risk_assessments.foldl (fun acc e =>
    match dictFind rm.sectors e.1 with
    | some sec =>
      acc ++ (sec.get_recommendations e.2).map (fun r => (r, sec.name, e.2.risk_level))
    | none => acc) []

/-- `RiskManager.get_priority_recommendations`: flatten the per-sector
recommendations, stable-sort descending by risk level, truncate to
`limit`. -/
def get_priority_recommendations (rm : RiskManager)
    (risk_assessments : List (String × RiskAssessment)) (limit : ℕ) :
    List (String × String × ℚ) :=
  (sortByRiskDesc (all_recommendation_triples rm risk_assessments)).take limit

/-! ## Recommender system (`core/recommender.py`) -/

/-- The hard-coded `sector_keywords` table of
`TelecomRecommenderSystem._identify_relevant_sectors`, in source order. -/
def sector_keywords : List (String × List String) :=
  [("network_infrastructure",
    ["network", "infrastructure", "fiber", "tower", "equipment",
     "hardware", "connectivity", "transmission", "switching"]),
   ("cybersecurity",
    ["security", "cybersecurity", "cyber", "protection", "firewall",
     "encryption", "threat", "vulnerability", "incident"]),
   ("regulatory_compliance",
    ["compliance", "regulation", "regulatory", "license", "legal",
     "policy", "audit", "standard", "certification"]),
   ("it_software_development",
    ["software", "development", "programming", "system", "integration",
     "application", "platform", "database", "api"]),
   ("telecom_services",
    ["service", "voice", "data", "internet", "mobile", "broadband",
     "telecommunication", "subscriber", "billing"]),
   ("customer_service_delivery",
    ["customer", "support", "service delivery", "helpdesk", "portal",
     "experience", "satisfaction", "call center"]),
   ("supply_chain_management",
    ["procurement", "vendor", "supplier", "logistics", "inventory",
     "sourcing", "contract", "delivery"]),
   ("marketing_sales",
    ["marketing", "sales", "campaign", "promotion", "advertising",
     "customer acquisition", "revenue", "pricing"]),
   ("human_resources",
    ["training", "staff", "employee", "recruitment", "workforce",
     "skills", "performance", "human resources"]),
   ("research_development",
    ["research", "development", "innovation", "r&d", "prototype",
     "pilot", "testing", "experiment", "technology development"])]

/-- Keyword relevance score of one sector: one hit per keyword occurring in
the lower-cased description, plus one hit per (technology, keyword) pair
where the keyword occurs in the lower-cased technology. -/
def relevance_score (pd : ProjectData) (keywords : List String) : ℕ :=
  let description_lower := pd.description.toLower
  let s := keywords.foldl (fun acc kw =>
    if strIn kw description_lower then acc + 1 else acc) 0
  pd.technologies.foldl (fun acc tech =>
    let tech_lower := tech.toLower
    keywords.foldl (fun acc2 kw =>
      if strIn kw tech_lower then acc2 + 1 else acc2) acc) s

/-- The `relevant_sectors` list: sectors with a positive score, paired with
their scores, in keyword-table order. -/
def scored_sectors (pd : ProjectData) : List (String × ℕ) :=
  (sector_keywords.map fun e => (e.1, relevance_score pd e.2)).filter
    (fun e => 0 < e.2)

/-- `relevant_sectors.sort(key=lambda x: x[1], reverse=True)`: descending
stable sort by score. -/
def sorted_scored_sectors (pd : ProjectData) : List (String × ℕ) :=
  (scored_sectors pd).mergeSort (fun x y => decide (y.2 ≤ x.2))

/-- The keyword-based branch of `_identify_relevant_sectors`: top three
scored sectors, any later sector scoring at least 3, then the mandatory
sectors appended when missing. -/
def keyword_relevant_sectors (pd : ProjectData) : List String :=
  let sorted := sorted_scored_sectors pd
  let result := (sorted.take 3).map Prod.fst
  let result := result ++ ((sorted.drop 3).filter (fun e => 3 ≤ e.2)).map Prod.fst
  let mandatory_sectors := ["cybersecurity", "regulatory_compliance"]
  mandatory_sectors.foldl (fun r s => if s ∈ r then r else r ++ [s]) result

/-- `TelecomRecommenderSystem._identify_relevant_sectors`: `if sectors_filter:`
is Python truthiness, so both a missing filter and an explicit empty list
fall through to the keyword heuristic. -/
def identify_relevant_sectors (pd : ProjectData)
    (sectors_filter : Option (List String)) : List String :=
  match sectors_filter with
  | some fs => if fs.isEmpty then keyword_relevant_sectors pd else fs
  | none => keyword_relevant_sectors pd

/-- `RecommendationReport._categorize_risk`: the fixed five-label threshold
table. -/
def categorize_risk (risk_score : ℚ) : String :=
  if risk_score ≥ 0.8 then "CRITICAL"
  else if risk_score ≥ 0.6 then "HIGH"
  else if risk_score ≥ 0.4 then "MEDIUM"
  else if risk_score ≥ 0.2 then "LOW"
  else "MINIMAL"

/-- `RecommendationReport` (generation timestamp omitted: environment
input). -/
structure RecommendationReport where
  project_data : ProjectData
  risk_assessments : List (String × RiskAssessment)
  overall_risk : ℚ
  top_risks : List (String × String × ℚ)
  priority_recommendations : List (String × String × ℚ)
  risk_category : String

/-- `TelecomRecommenderSystem.assess_project`: validation first (raising
`ValueError` with the combined message), then sector identification, risk
assessment, overall risk, ranked risks and recommendations, report
assembly. -/
def assess_project (rm : RiskManager) (pd : ProjectData)
    (sectors_filter : Option (List String)) : Except String RecommendationReport :=
  let validation_issues := validate_project_data pd
  if validation_issues.isEmpty then
    let relevant_sectors := identify_relevant_sectors pd sectors_filter
    let risk_assessments := assess_project_risk rm pd (some relevant_sectors)
    let overall_risk := calculate_overall_risk rm risk_assessments
    let top_risks := get_top_risk_factors rm risk_assessments 10
    let priority_recommendations := get_priority_recommendations rm risk_assessments 15
    .ok { project_data := pd
          risk_assessments := risk_assessments
          overall_risk := overall_risk
          top_risks := top_risks
          priority_recommendations := priority_recommendations
          risk_category := categorize_risk overall_risk }
  else
    .error ("Project data validation failed: " ++ String.intercalate "; " validation_issues)

/-! ## General helper lemmas -/

/-- A left fold whose step never decreases the accumulator is bounded below
by its initial value. -/
theorem foldl_mono {α : Type} (l : List α) (f : ℚ → α → ℚ)
    (h : ∀ acc x, x ∈ l → acc ≤ f acc x) (init : ℚ) :
    init ≤ l.foldl f init := by
  induction l generalizing init with
  | nil => exact le_refl _
  | cons x t ih =>
    simp only [List.foldl_cons]
    calc init ≤ f init x := h init x (List.mem_cons_self x t)
    _ ≤ t.foldl f (f init x) :=
      ih (fun a y hy => h a y (List.mem_cons_of_mem x hy)) (f init x)

/-- A pair-valued left fold whose step never decreases the first component
is bounded below in that component by its initial value. -/
theorem foldl_fst_mono {α : Type} (l : List α) (f : (ℚ × ℕ) → α → (ℚ × ℕ))
    (h : ∀ p x, x ∈ l → p.1 ≤ (f p x).1) (init : ℚ × ℕ) :
    init.1 ≤ (l.foldl f init).1 := by
  induction l generalizing init with
  | nil => exact le_refl _
  | cons x t ih =>
    simp only [List.foldl_cons]
    calc init.1 ≤ (f init x).1 := h init x (List.mem_cons_self x t)
    _ ≤ (t.foldl f (f init x)).1 :=
      ih (fun a y hy => h a y (List.mem_cons_of_mem x hy)) (f init x)

/-- Lookup after Python dict assignment. -/
theorem dictFind_insert {β : Type} (d : List (String × β)) (k k' : String) (v : β) :
    dictFind (dictInsert d k v) k' = if k = k' then some v else dictFind d k' := by
  induction d with
  | nil => simp [dictInsert, dictFind]
  | cons e t ih =>
    rcases e with ⟨a, b⟩
    by_cases ha : a = k
    · subst ha
      simp only [dictInsert, if_pos rfl, dictFind]
      by_cases h' : a = k' <;> simp [h']
    · simp only [dictInsert, if_neg ha, dictFind, ih]
      by_cases h' : a = k'
      · have hk : ¬ k = k' := fun hh => ha (h'.trans hh.symm)
        simp [h', hk]
      · simp [h']

theorem dictFind_insert_self {β : Type} (d : List (String × β)) (k : String) (v : β) :
    dictFind (dictInsert d k v) k = some v := by
  simp [dictFind_insert]

theorem dictFind_insert_ne {β : Type} (d : List (String × β)) (k k' : String) (v : β)
    (h : k' ≠ k) : dictFind (dictInsert d k v) k' = dictFind d k' := by
  rw [dictFind_insert, if_neg (fun hh => h hh.symm)]

theorem mem_dictInsert {β : Type} {k : String} {v : β} {e : String × β} :
    ∀ {d : List (String × β)}, e ∈ dictInsert d k v → e = (k, v) ∨ e ∈ d := by
  intro d
  induction d with
  | nil =>
    intro h
    simpa [dictInsert] using h
  | cons e' t ih =>
    intro h
    rcases e' with ⟨a, b⟩
    by_cases he : a = k
    · rw [show dictInsert ((a, b) :: t) k v = (k, v) :: t from by simp [dictInsert, he]] at h
      rcases List.mem_cons.mp h with h | h
      · exact Or.inl h
      · exact Or.inr (List.mem_cons_of_mem _ h)
    · rw [show dictInsert ((a, b) :: t) k v = (a, b) :: dictInsert t k v from by
        simp [dictInsert, he]] at h
      rcases List.mem_cons.mp h with h | h
      · exact Or.inr (by simp [h])
      · rcases ih h with h' | h'
        · exact Or.inl h'
        · exact Or.inr (List.mem_cons_of_mem _ h')

/-- First-key lookup succeeds only on an actual entry of the list. -/
theorem dictFind_mem {β : Type} {k : String} {v : β} :
    ∀ {d : List (String × β)}, dictFind d k = some v → (k, v) ∈ d := by
  intro d
  induction d with
  | nil =>
    intro h
    simp [dictFind] at h
  | cons e t ih =>
    intro h
    rcases e with ⟨a, b⟩
    by_cases he : a = k
    · subst he
      have hb : b = v := by simpa [dictFind] using h
      subst hb
      exact List.mem_cons_self _ _
    · rw [show dictFind ((a, b) :: t) k = dictFind t k from by simp [dictFind, he]] at h
      exact List.mem_cons_of_mem _ (ih h)

/-- Lookup in the sector dictionary built by `mkRiskManager` is lookup in
the configuration followed by the dispatch. -/
theorem dictFind_mkRiskManager (cfgs : List (String × SectorConfig)) (s : String) :
    dictFind (mkRiskManager cfgs).sectors s = (dictFind cfgs s).map (mkSector s) := by
  simp only [mkRiskManager]
  induction cfgs with
  | nil => simp [dictFind]
  | cons e t ih =>
    by_cases he : e.1 = s
    · simp [dictFind, he]
    · simp [dictFind, he, ih]

/-- The dispatch preserves the configured weight. -/
theorem mkSector_weight (s : String) (cfg : SectorConfig) :
    (mkSector s cfg).weight = cfg.weight := by
  unfold mkSector placeholderSector
  split
  · rfl
  · split
    · rfl
    · split <;> rfl

/-- Validity of project data, extracted from the empty issue list. -/
theorem validate_eq_nil_iff (pd : ProjectData) :
    validate_project_data pd = [] ↔
      (pd.project_id ≠ "" ∧ pd.description ≠ "" ∧ 0 < pd.budget ∧
       0 < pd.timeline_days ∧ (0 ≤ pd.complexity_score ∧ pd.complexity_score ≤ 1) ∧
       pd.technologies ≠ [] ∧ pd.stakeholders ≠ []) := by
  simp only [validate_project_data, List.append_eq_nil]
  constructor
  · intro h
    refine ⟨?_, ?_, ?_, ?_, ?_, ?_, ?_⟩ <;>
      [skip; skip; skip; skip; skip; skip; skip]
    · intro hc; simp [hc] at h
    · intro hc; simp [hc] at h
    · by_contra hc; push_neg at hc; simp [hc] at h
    · by_contra hc; push_neg at hc; simp [hc] at h
    · by_contra hc; simp [hc] at h
    · intro hc; simp [hc] at h
    · intro hc; simp [hc] at h
  · rintro ⟨h1, h2, h3, h4, h5, h6, h7⟩
    simp [h1, h2, not_le.mpr h3, not_le.mpr h4, h5.1, h5.2, h6, h7]

/-! ## Aggregation characterization -/

/-- One iteration of the `assess_project_risk` loop. -/
def assess_step (rm : RiskManager) (pd : ProjectData)
    (acc : List (String × RiskAssessment)) (sector_id : String) :
    List (String × RiskAssessment) :=
  match dictFind rm.sectors sector_id with
  | none => acc
  | some sec =>
    match sec.assess_risk pd with
    | .ok ra => dictInsert acc sector_id ra
    | .error _ => dictInsert acc sector_id (create_fallback_assessment sec)

theorem assess_project_risk_eq_foldl (rm : RiskManager) (pd : ProjectData)
    (o : Option (List String)) :
    assess_project_risk rm pd o =
      (o.getD (rm.sectors.map Prod.fst)).foldl (assess_step rm pd) [] := rfl

/-- The deterministic assessment the aggregator stores for a requested
sector id: the scorer result, or the fallback when the scorer raises;
`none` for ids unknown to the manager. -/
def sector_assess_value (rm : RiskManager) (pd : ProjectData) (s : String) :
    Option RiskAssessment :=
  (dictFind rm.sectors s).map fun sec =>
    match sec.assess_risk pd with
    | .ok ra => ra
    | .error _ => create_fallback_assessment sec

theorem assess_step_eq (rm : RiskManager) (pd : ProjectData)
    (acc : List (String × RiskAssessment)) (i : String) :
    assess_step rm pd acc i =
      match sector_assess_value rm pd i with
      | none => acc
      | some v => dictInsert acc i v := by
  unfold assess_step sector_assess_value
  cases hfind : dictFind rm.sectors i with
  | none => rfl
  | some sec =>
    cases hass : sec.assess_risk pd with
    | ok ra => simp [hass]
    | error msg => simp [hass]

/-- Lookup in the dictionary built by the `assess_project_risk` loop. -/
theorem dictFind_assess_foldl (rm : RiskManager) (pd : ProjectData) :
    ∀ (ids : List String) (acc : List (String × RiskAssessment)),
      (∀ t v, dictFind acc t = some v → sector_assess_value rm pd t = some v) →
      ∀ s, dictFind (ids.foldl (assess_step rm pd) acc) s =
        if s ∈ ids ∧ (sector_assess_value rm pd s).isSome then
          sector_assess_value rm pd s
        else dictFind acc s := by
  intro ids
  induction ids with
  | nil =>
    intro acc _ s
    simp
  | cons i rest ih =>
    intro acc hacc s
    have hstep : ∀ t v, dictFind (assess_step rm pd acc i) t = some v →
        sector_assess_value rm pd t = some v := by
      intro t v hv
      rw [assess_step_eq] at hv
      cases hval : sector_assess_value rm pd i with
      | none => rw [hval] at hv; exact hacc t v hv
      | some w =>
        rw [hval] at hv
        by_cases hti : i = t
        · subst hti
          rw [dictFind_insert_self] at hv
          cases hv
          exact hval
        · rw [dictFind_insert_ne _ _ _ _ (fun hh => hti hh.symm)] at hv
          exact hacc t v hv
    rw [List.foldl_cons, ih (assess_step rm pd acc i) hstep s]
    by_cases hrest : s ∈ rest ∧ (sector_assess_value rm pd s).isSome
    · rw [if_pos hrest, if_pos ⟨List.mem_cons_of_mem i hrest.1, hrest.2⟩]
    · rw [if_neg hrest, assess_step_eq]
      by_cases hsi : s = i
      · subst hsi
        cases hval : sector_assess_value rm pd s with
        | none => simp
        | some w => simp [dictFind_insert_self]
      · have hnot : ¬ (s ∈ i :: rest ∧ (sector_assess_value rm pd s).isSome) := by
          intro hcon
          rcases List.mem_cons.mp hcon.1 with h | h
          · exact hsi h
          · exact hrest ⟨h, hcon.2⟩
        rw [if_neg hnot]
        cases hval : sector_assess_value rm pd i with
        | none => rfl
        | some w => exact dictFind_insert_ne _ _ _ _ hsi

/-- Lookup in the result of `assess_project_risk` with an explicit sector
list. -/
theorem dictFind_assess_project_risk (rm : RiskManager) (pd : ProjectData)
    (ids : List String) (s : String) :
    dictFind (assess_project_risk rm pd (some ids)) s =
      if s ∈ ids then sector_assess_value rm pd s else none := by
  have h := dictFind_assess_foldl rm pd ids [] (by intro t v hv; simp [dictFind] at hv) s
  rw [assess_project_risk_eq_foldl]
  simp only [Option.getD_some]
  rw [h]
  by_cases hmem : s ∈ ids
  · cases hval : sector_assess_value rm pd s with
    | none => simp [hmem, dictFind]
    | some w => simp [hmem, dictFind]
  · simp [hmem, dictFind]

/-- Every entry of the dictionary built by the `assess_project_risk` loop
comes from a known sector as that sector's deterministic assessment. -/
theorem mem_assess_foldl (rm : RiskManager) (pd : ProjectData) :
    ∀ (ids : List String) (acc : List (String × RiskAssessment)),
      ∀ e ∈ ids.foldl (assess_step rm pd) acc,
        e ∈ acc ∨ sector_assess_value rm pd e.1 = some e.2 := by
  intro ids
  induction ids with
  | nil =>
    intro acc e he
    exact Or.inl he
  | cons i rest ih =>
    intro acc e he
    rw [List.foldl_cons] at he
    rcases ih (assess_step rm pd acc i) e he with h | h
    · rw [assess_step_eq] at h
      cases hval : sector_assess_value rm pd i with
      | none => rw [hval] at h; exact Or.inl h
      | some w =>
        rw [hval] at h
        rcases mem_dictInsert h with h' | h'
        · right
          rw [h']
          exact hval
        · exact Or.inl h'
    · exact Or.inr h

/-- Every entry of an `assess_project_risk` result is the deterministic
assessment of a known sector. -/
theorem mem_assess_project_risk (rm : RiskManager) (pd : ProjectData)
    (o : Option (List String)) (e : String × RiskAssessment)
    (he : e ∈ assess_project_risk rm pd o) :
    ∃ sec, dictFind rm.sectors e.1 = some sec ∧
      ((∃ ra, sec.assess_risk pd = .ok ra ∧ e.2 = ra) ∨
       e.2 = create_fallback_assessment sec) := by
  rw [assess_project_risk_eq_foldl] at he
  rcases mem_assess_foldl rm pd _ [] e he with h | h
  · simp at h
  · unfold sector_assess_value at h
    cases hfind : dictFind rm.sectors e.1 with
    | none => rw [hfind] at h; simp at h
    | some sec =>
      rw [hfind] at h
      simp only [Option.map_some', Option.some.injEq] at h
      refine ⟨sec, rfl, ?_⟩
      cases hass : sec.assess_risk pd with
      | ok ra =>
        rw [hass] at h
        exact Or.inl ⟨ra, rfl, h.symm⟩
      | error msg =>
        rw [hass] at h
        exact Or.inr h.symm

/-! ## Range lemmas for the sub-scores and scorers -/

theorem foldl_nonneg {α : Type} (l : List α) (f : ℚ → α → ℚ)
    (h : ∀ acc x, x ∈ l → acc ≤ f acc x) (init : ℚ) (h0 : 0 ≤ init) :
    0 ≤ l.foldl f init :=
  le_trans h0 (foldl_mono l f h init)

/-- Conditionally adding a nonnegative bonus never decreases a value. -/
theorem le_ite_add {c : Prop} [Decidable c] (a d : ℚ) (hd : 0 ≤ d) :
    a ≤ if c then a + d else a := by
  split
  · linarith
  · exact le_refl a

theorem calculate_base_risk_score_nonneg (pd : ProjectData) :
    0 ≤ calculate_base_risk_score pd := by
  unfold calculate_base_risk_score
  exact le_min (le_max_right _ _) zero_le_one

theorem calculate_base_risk_score_le_one (pd : ProjectData) :
    calculate_base_risk_score pd ≤ 1 := by
  unfold calculate_base_risk_score
  exact min_le_right _ _

namespace NetworkInfrastructure

theorem assess_infrastructure_risk_nonneg (pd : ProjectData)
    (hc : 0 ≤ pd.complexity_score) : 0 ≤ assess_infrastructure_risk pd := by
  unfold assess_infrastructure_risk
  refine le_min ?_ zero_le_one
  refine div_nonneg (mul_nonneg ?_ (by linarith)) (Nat.cast_nonneg _)
  refine foldl_nonneg _ _ (fun acc tech _ => ?_) 0 (le_refl 0)
  refine foldl_mono _ _ (fun acc2 cm hcm => ?_) acc
  have hcm2 : 0 ≤ cm.2 := by
    revert hcm
    unfold infrastructure_components
    intro hcm
    fin_cases hcm <;> norm_num
  exact le_ite_add _ _ hcm2

theorem assess_environmental_risk_nonneg (pd : ProjectData)
    (ht : 0 ≤ pd.timeline_days) : 0 ≤ assess_environmental_risk pd := by
  unfold assess_environmental_risk
  refine le_min ?_ zero_le_one
  have h1 : (0 : ℚ) ≤ min ((pd.timeline_days : ℚ) / 365) 2 := by
    refine le_min ?_ (by norm_num)
    exact div_nonneg (by exact_mod_cast ht) (by norm_num)
  have h2 : (0 : ℚ) ≤
      (["tower", "outdoor", "external", "field", "installation"] : List String).foldl
        (fun acc kw => if strIn kw pd.description.toLower then acc + 0.2 else acc) 0 :=
    foldl_nonneg _ _ (fun acc kw _ => le_ite_add _ _ (by norm_num)) 0 (le_refl 0)
  linarith

theorem techAgeContribution_nonneg (s : String) : 0 ≤ techAgeContribution s := by
  unfold techAgeContribution
  split
  · norm_num
  · split
    · norm_num
    · split <;> norm_num

theorem assess_technology_risk_nonneg (pd : ProjectData) :
    0 ≤ assess_technology_risk pd := by
  unfold assess_technology_risk
  refine le_min ?_ zero_le_one
  refine div_nonneg ?_ (Nat.cast_nonneg _)
  refine foldl_nonneg _ _ (fun acc tech _ => ?_) 0 (le_refl 0)
  have := techAgeContribution_nonneg tech.toLower
  linarith

theorem assess_capacity_risk_nonneg (pd : ProjectData) :
    0 ≤ assess_capacity_risk pd := by
  unfold assess_capacity_risk
  refine le_min ?_ zero_le_one
  refine foldl_nonneg _ _ (fun acc kw _ => le_ite_add _ _ (by norm_num)) _ ?_
  split
  · split <;> norm_num
  · split <;> norm_num

theorem ni_risk_level_nonneg (sid : String) (cfg : SectorConfig) (pd : ProjectData)
    (hw : 0 ≤ cfg.weight) (hc : 0 ≤ pd.complexity_score) (ht : 0 ≤ pd.timeline_days) :
    0 ≤ (assess_risk sid cfg pd).risk_level := by
  unfold assess_risk
  refine le_min ?_ zero_le_one
  have hb := calculate_base_risk_score_nonneg pd
  have hi := assess_infrastructure_risk_nonneg pd hc
  have he := assess_environmental_risk_nonneg pd ht
  have htr := assess_technology_risk_nonneg pd
  have hcp := assess_capacity_risk_nonneg pd
  have htot : (0 : ℚ) ≤
      calculate_base_risk_score pd * 0.3 + assess_infrastructure_risk pd * 0.25 +
      assess_environmental_risk pd * 0.2 + assess_technology_risk pd * 0.15 +
      assess_capacity_risk pd * 0.1 := by linarith
  have h10 : (0 : ℚ) ≤ 10 := by norm_num
  exact mul_nonneg (mul_nonneg htot hw) h10

theorem ni_risk_level_le_one (sid : String) (cfg : SectorConfig) (pd : ProjectData) :
    (assess_risk sid cfg pd).risk_level ≤ 1 := by
  unfold assess_risk
  exact min_le_right _ _

end NetworkInfrastructure

namespace Cybersecurity

theorem assess_threat_landscape_nonneg (pd : ProjectData) :
    0 ≤ assess_threat_landscape pd := by
  unfold assess_threat_landscape
  refine le_min ?_ zero_le_one
  have hf : (0 : ℚ) ≤
      (["internet-facing", "public", "external", "customer-facing"] : List String).foldl
        (fun acc kw => if strIn kw pd.description.toLower then acc + 0.2 else acc) 0.5 :=
    foldl_nonneg _ _ (fun acc kw _ => le_ite_add _ _ (by norm_num)) _ (by norm_num)
  split_ifs <;> linarith

theorem assess_compliance_risk_nonneg (pd : ProjectData) :
    0 ≤ assess_compliance_risk pd := by
  unfold assess_compliance_risk
  refine le_min ?_ zero_le_one
  refine foldl_nonneg _ _ (fun acc kw _ => le_ite_add _ _ (by norm_num)) _ ?_
  refine foldl_nonneg _ _ (fun acc kw _ => le_ite_add _ _ (by norm_num)) _ (by norm_num)

theorem assess_technology_security_risk_nonneg (pd : ProjectData) :
    0 ≤ assess_technology_security_risk pd := by
  unfold assess_technology_security_risk
  refine le_min ?_ zero_le_one
  refine div_nonneg ?_ (Nat.cast_nonneg _)
  refine foldl_nonneg _ _ (fun acc kw _ => le_ite_add _ _ (by norm_num)) _ ?_
  refine foldl_nonneg _ _ (fun acc tech _ => ?_) 0 (le_refl 0)
  refine foldl_mono _ _ (fun acc2 rt hrt => ?_) acc
  have hrt2 : 0 ≤ rt.2 := by
    revert hrt
    unfold technology_risks
    intro hrt
    fin_cases hrt <;> norm_num
  exact le_ite_add _ _ hrt2

theorem assess_data_protection_risk_nonneg (pd : ProjectData) :
    0 ≤ assess_data_protection_risk pd := by
  unfold assess_data_protection_risk
  refine le_min ?_ zero_le_one
  have hf : (0 : ℚ) ≤
      (["database", "customer data", "personal information", "analytics",
        "reporting"] : List String).foldl
        (fun acc kw => if strIn kw pd.description.toLower then acc + 0.2 else acc) 0.3 :=
    foldl_nonneg _ _ (fun acc kw _ => le_ite_add _ _ (by norm_num)) _ (by norm_num)
  split_ifs <;> linarith

/-- The pair accumulated by `_assess_security_controls` keeps a nonnegative
score component. -/
theorem controls_fold_fst_nonneg (pd : ProjectData) :
    (0 : ℚ) ≤ (pd.technologies.foldl (fun (p : ℚ × ℕ) tech =>
      let tech_lower := tech.toLower
      Cybersecurity.security_controls.foldl (fun (p2 : ℚ × ℕ) ce =>
        let control_terms := underscoreToSpace ce.1
        if strIn control_terms pd.description.toLower || strIn control_terms tech_lower ||
            strIn ce.1 tech_lower then
          (p2.1 + ce.2, p2.2 + 1)
        else p2) p) ((0 : ℚ), (0 : ℕ))).1 := by
  refine foldl_fst_mono _ _ (fun p tech _ => ?_) ((0 : ℚ), (0 : ℕ))
  refine foldl_fst_mono _ _ (fun p2 ce hce => ?_) p
  have hce2 : 0 ≤ ce.2 := by
    revert hce
    unfold Cybersecurity.security_controls
    intro hce
    fin_cases hce <;> norm_num
  dsimp only
  split
  · show p2.1 ≤ p2.1 + ce.2
    linarith
  · exact le_refl _

theorem assess_security_controls_nonneg (pd : ProjectData) :
    0 ≤ assess_security_controls pd := by
  have hfst := controls_fold_fst_nonneg pd
  unfold assess_security_controls
  dsimp only
  split
  · exact le_min (div_nonneg hfst (Nat.cast_nonneg _)) zero_le_one
  · norm_num

theorem assess_security_controls_le_one (pd : ProjectData) :
    assess_security_controls pd ≤ 1 := by
  unfold assess_security_controls
  dsimp only
  split
  · exact min_le_right _ _
  · norm_num

theorem cyber_risk_level_nonneg (sid : String) (cfg : SectorConfig) (pd : ProjectData)
    (hw : 0 ≤ cfg.weight) : 0 ≤ (assess_risk sid cfg pd).risk_level := by
  unfold assess_risk
  refine le_min ?_ zero_le_one
  have hb := calculate_base_risk_score_nonneg pd
  have hth := assess_threat_landscape_nonneg pd
  have hcm := assess_compliance_risk_nonneg pd
  have hts := assess_technology_security_risk_nonneg pd
  have hdp := assess_data_protection_risk_nonneg pd
  have hc1 := assess_security_controls_le_one pd
  have htot : (0 : ℚ) ≤
      calculate_base_risk_score pd * 0.2 + assess_threat_landscape pd * 0.25 +
      assess_compliance_risk pd * 0.2 + assess_technology_security_risk pd * 0.2 +
      assess_data_protection_risk pd * 0.15 := by linarith
  have hadj : (0 : ℚ) ≤ 1 - assess_security_controls pd * 0.5 := by linarith
  have h10 : (0 : ℚ) ≤ 10 := by norm_num
  exact mul_nonneg (mul_nonneg (mul_nonneg htot hadj) hw) h10

theorem cyber_risk_level_le_one (sid : String) (cfg : SectorConfig) (pd : ProjectData) :
    (assess_risk sid cfg pd).risk_level ≤ 1 := by
  unfold assess_risk
  exact min_le_right _ _

end Cybersecurity

namespace RegulatoryCompliance

theorem assess_regulatory_framework_risk_nonneg (pd : ProjectData) :
    0 ≤ assess_regulatory_framework_risk pd := by
  unfold assess_regulatory_framework_risk
  dsimp only
  refine le_min ?_ zero_le_one
  refine div_nonneg ?_ (Nat.cast_nonneg _)
  have hfst : (0 : ℚ) ≤ (regulatory_frameworks.foldl (fun (p : ℚ × ℕ) fw =>
      if fw.2.2.any (fun kw => strIn kw pd.description.toLower) then
        (p.1 + fw.2.1, p.2 + 1)
      else p) ((0 : ℚ), (0 : ℕ))).1 := by
    refine foldl_fst_mono _ _ (fun p fw hfw => ?_) _
    have h2 : 0 ≤ fw.2.1 := by
      revert hfw
      unfold regulatory_frameworks
      intro hfw
      fin_cases hfw <;> norm_num
    split
    · show p.1 ≤ p.1 + fw.2.1
      linarith
    · exact le_refl _
  split_ifs <;> linarith

theorem assess_license_compliance_risk_nonneg (pd : ProjectData) :
    0 ≤ assess_license_compliance_risk pd := by
  unfold assess_license_compliance_risk
  refine le_min ?_ zero_le_one
  have hf : (0 : ℚ) ≤
      (["new service", "service launch", "spectrum", "frequency",
        "infrastructure deployment", "network expansion", "interconnection"] :
        List String).foldl
        (fun acc kw => if strIn kw pd.description.toLower then acc + 0.3 else acc) 0.4 :=
    foldl_nonneg _ _ (fun acc kw _ => le_ite_add _ _ (by norm_num)) _ (by norm_num)
  have hg : (0 : ℚ) ≤
      (["international", "cross-border", "submarine cable", "satellite"] :
        List String).foldl
        (fun acc kw => if strIn kw pd.description.toLower then acc + 0.4 else acc)
        ((["new service", "service launch", "spectrum", "frequency",
           "infrastructure deployment", "network expansion", "interconnection"] :
           List String).foldl
          (fun acc kw => if strIn kw pd.description.toLower then acc + 0.3 else acc) 0.4) :=
    foldl_nonneg _ _ (fun acc kw _ => le_ite_add _ _ (by norm_num)) _ hf
  split_ifs <;> linarith

theorem rc_data_protection_risk_nonneg (pd : ProjectData) :
    0 ≤ assess_data_protection_risk pd := by
  unfold assess_data_protection_risk
  refine le_min ?_ zero_le_one
  have hf : (0 : ℚ) ≤
      (["customer data", "personal information", "data collection",
        "data processing", "analytics", "artificial intelligence",
        "machine learning", "profiling", "behavioral analysis"] : List String).foldl
        (fun acc kw => if strIn kw pd.description.toLower then acc + 0.2 else acc) 0.3 :=
    foldl_nonneg _ _ (fun acc kw _ => le_ite_add _ _ (by norm_num)) _ (by norm_num)
  have hg : (0 : ℚ) ≤
      (["customer portal", "mobile app", "web service", "self-service"] :
        List String).foldl
        (fun acc kw => if strIn kw pd.description.toLower then acc + 0.3 else acc)
        ((["customer data", "personal information", "data collection",
           "data processing", "analytics", "artificial intelligence",
           "machine learning", "profiling", "behavioral analysis"] : List String).foldl
          (fun acc kw => if strIn kw pd.description.toLower then acc + 0.2 else acc) 0.3) :=
    foldl_nonneg _ _ (fun acc kw _ => le_ite_add _ _ (by norm_num)) _ hf
  split_ifs <;> linarith

theorem assess_audit_readiness_risk_nonneg (pd : ProjectData) :
    0 ≤ assess_audit_readiness_risk pd := by
  unfold assess_audit_readiness_risk
  refine le_min ?_ zero_le_one
  refine foldl_nonneg _ _ (fun acc tech _ => le_ite_add _ _ (by norm_num)) _ ?_
  split_ifs <;> norm_num

theorem assess_policy_compliance_risk_nonneg (pd : ProjectData) :
    0 ≤ assess_policy_compliance_risk pd := by
  unfold assess_policy_compliance_risk
  dsimp only
  refine le_min ?_ zero_le_one
  split_ifs <;> norm_num

theorem rc_risk_level_nonneg (sid : String) (cfg : SectorConfig) (pd : ProjectData)
    (hw : 0 ≤ cfg.weight) : 0 ≤ (assess_risk sid cfg pd).risk_level := by
  unfold assess_risk
  refine le_min ?_ zero_le_one
  have hb := calculate_base_risk_score_nonneg pd
  have h1 := assess_regulatory_framework_risk_nonneg pd
  have h2 := assess_license_compliance_risk_nonneg pd
  have h3 := rc_data_protection_risk_nonneg pd
  have h4 := assess_audit_readiness_risk_nonneg pd
  have h5 := assess_policy_compliance_risk_nonneg pd
  have htot : (0 : ℚ) ≤
      calculate_base_risk_score pd * 0.15 + assess_regulatory_framework_risk pd * 0.25 +
      assess_license_compliance_risk pd * 0.2 + assess_data_protection_risk pd * 0.2 +
      assess_audit_readiness_risk pd * 0.1 + assess_policy_compliance_risk pd * 0.1 := by
    linarith
  exact mul_nonneg (mul_nonneg htot hw) (by norm_num)

theorem rc_risk_level_le_one (sid : String) (cfg : SectorConfig) (pd : ProjectData) :
    (assess_risk sid cfg pd).risk_level ≤ 1 := by
  unfold assess_risk
  exact min_le_right _ _

end RegulatoryCompliance

/-- Risk-level bounds for every assessment the dispatch can produce, for a
nonnegative configured weight and nonnegative complexity and timeline. -/
theorem mkSector_risk_level_bounds (s : String) (cfg : SectorConfig) (pd : ProjectData)
    (ra : RiskAssessment) (hw : 0 ≤ cfg.weight) (hc : 0 ≤ pd.complexity_score)
    (ht : 0 ≤ pd.timeline_days) (h : (mkSector s cfg).assess_risk pd = .ok ra) :
    0 ≤ ra.risk_level ∧ ra.risk_level ≤ 1 := by
  unfold mkSector at h
  split_ifs at h with h1 h2 h3
  · simp only [Except.ok.injEq] at h
    subst h
    exact ⟨NetworkInfrastructure.ni_risk_level_nonneg s cfg pd hw hc ht,
      NetworkInfrastructure.ni_risk_level_le_one s cfg pd⟩
  · simp only [Except.ok.injEq] at h
    subst h
    exact ⟨Cybersecurity.cyber_risk_level_nonneg s cfg pd hw,
      Cybersecurity.cyber_risk_level_le_one s cfg pd⟩
  · simp only [Except.ok.injEq] at h
    subst h
    exact ⟨RegulatoryCompliance.rc_risk_level_nonneg s cfg pd hw,
      RegulatoryCompliance.rc_risk_level_le_one s cfg pd⟩
  · unfold placeholderSector at h
    simp only [Except.ok.injEq] at h
    subst h
    exact ⟨le_min (mul_nonneg hc (by norm_num)) zero_le_one, min_le_right _ _⟩

theorem create_fallback_risk_level (sec : Sector) :
    (create_fallback_assessment sec).risk_level = 0.5 := rfl

/-! ## Overall-risk bounds -/

/-- One iteration of the `calculate_overall_risk` accumulation. -/
def overall_step (rm : RiskManager) (p : ℚ × ℚ) (e : String × RiskAssessment) : ℚ × ℚ :=
  match dictFind rm.sectors e.1 with
  | some sec => (p.1 + e.2.risk_level * sec.weight, p.2 + sec.weight)
  | none => p

theorem calculate_overall_risk_eq (rm : RiskManager)
    (ras : List (String × RiskAssessment)) :
    calculate_overall_risk rm ras =
      if ras.isEmpty then 0.5
      else
        let wt := ras.foldl (overall_step rm) ((0 : ℚ), (0 : ℚ))
        if wt.2 > 0 then min (wt.1 / wt.2) 1 else 0.5 := rfl

theorem overall_fold_nonneg (rm : RiskManager) :
    ∀ (l : List (String × RiskAssessment)) (init : ℚ × ℚ),
      (∀ e ∈ l, 0 ≤ e.2.risk_level) →
      (∀ s sec, dictFind rm.sectors s = some sec → 0 ≤ sec.weight) →
      0 ≤ init.1 → 0 ≤ init.2 →
      0 ≤ (l.foldl (overall_step rm) init).1 ∧ 0 ≤ (l.foldl (overall_step rm) init).2 := by
  intro l
  induction l with
  | nil =>
    intro init _ _ h1 h2
    exact ⟨h1, h2⟩
  | cons e t ih =>
    intro init hr hw h1 h2
    rw [List.foldl_cons]
    have hstep : 0 ≤ (overall_step rm init e).1 ∧ 0 ≤ (overall_step rm init e).2 := by
      unfold overall_step
      cases hfind : dictFind rm.sectors e.1 with
      | none => exact ⟨h1, h2⟩
      | some sec =>
        have hre : 0 ≤ e.2.risk_level := hr e (List.mem_cons_self e t)
        have hwe : 0 ≤ sec.weight := hw e.1 sec hfind
        constructor
        · show 0 ≤ init.1 + e.2.risk_level * sec.weight
          have := mul_nonneg hre hwe
          linarith
        · show 0 ≤ init.2 + sec.weight
          linarith
    exact ih (overall_step rm init e)
      (fun x hx => hr x (List.mem_cons_of_mem e hx)) hw hstep.1 hstep.2

/-- `calculate_overall_risk` stays in `[0, 1]` whenever every assessed risk
level is nonnegative and every configured weight is nonnegative. -/
theorem calculate_overall_risk_bounds (rm : RiskManager)
    (ras : List (String × RiskAssessment))
    (hr : ∀ e ∈ ras, 0 ≤ e.2.risk_level)
    (hw : ∀ s sec, dictFind rm.sectors s = some sec → 0 ≤ sec.weight) :
    0 ≤ calculate_overall_risk rm ras ∧ calculate_overall_risk rm ras ≤ 1 := by
  rw [calculate_overall_risk_eq]
  split
  · norm_num
  · dsimp only
    have hb := overall_fold_nonneg rm ras ((0 : ℚ), (0 : ℚ)) hr hw (le_refl 0) (le_refl 0)
    split
    · rename_i hpos
      constructor
      · exact le_min (div_nonneg hb.1 hb.2) zero_le_one
      · exact min_le_right _ _
    · norm_num

/-! ## More helper lemmas -/

/-- `np.clip(x, 0, 1)` agrees with the threshold description of clamping. -/
theorem clamp_eq (x : ℚ) :
    min (max x 0) 1 = if x < 0 then 0 else if x > 1 then 1 else x := by
  split_ifs with h1 h2
  · rw [max_eq_right (le_of_lt h1), min_eq_left zero_le_one]
  · rw [max_eq_left (by linarith), min_eq_right (le_of_lt h2)]
  · rw [max_eq_left (not_lt.mp h1), min_eq_left (not_lt.mp h2)]

theorem sum_nonneg_eq_zero {l : List ℚ} (h : ∀ x ∈ l, 0 ≤ x) :
    l.sum = 0 ↔ ∀ x ∈ l, x = 0 := by
  induction l with
  | nil => simp
  | cons a t ih =>
    have ha : 0 ≤ a := h a (List.mem_cons_self a t)
    have hts : 0 ≤ t.sum := List.sum_nonneg (fun x hx => h x (List.mem_cons_of_mem a hx))
    have iht := ih (fun x hx => h x (List.mem_cons_of_mem a hx))
    simp only [List.sum_cons, List.mem_cons]
    constructor
    · intro h0
      have ha0 : a = 0 := by linarith
      have ht0 : t.sum = 0 := by linarith
      intro x hx
      rcases hx with hx | hx
      · rw [hx]; exact ha0
      · exact iht.mp ht0 x hx
    · intro hall
      have ha0 : a = 0 := hall a (Or.inl rfl)
      have ht0 : t.sum = 0 := iht.mpr (fun x hx => hall x (Or.inr hx))
      rw [ha0, ht0, add_zero]

/-- Membership in a conditional singleton message list. -/
theorem mem_ite_singleton {c : Prop} [Decidable c] {m x : String} :
    (x ∈ (if c then [m] else [])) ↔ (c ∧ x = m) := by
  split <;> simp_all

/-! ## Claim C7 -/

/-- The shared base risk score as §4.2 of the spec words it: weighted sum of
four normalized factors, clamped to `[0, 1]` by thresholding.  This
definition follows the SPEC text; `calculate_base_risk_score` follows the
source. -/
def spec_base_risk_score (pd : ProjectData) : ℚ :=
  let s :=
    0.25 * min (pd.budget / 1000000) 1 +
    0.25 * min ((pd.timeline_days : ℚ) / 365) 1 +
    0.35 * pd.complexity_score +
    0.15 * min ((pd.dependencies.length : ℚ) / 10) 1
  if s < 0 then 0 else if s > 1 then 1 else s

/-- C7: for every `ProjectData`, the shared base risk score helper returns
the weighted sum `0.25 * min(budget/1000000, 1) + 0.25 * min(timeline/365, 1)
+ 0.35 * complexity + 0.15 * min(dependencies/10, 1)`, clamped to `[0, 1]`. -/
theorem C7_base_risk_score_spec (pd : ProjectData) :
    calculate_base_risk_score pd = spec_base_risk_score pd := by
  unfold calculate_base_risk_score spec_base_risk_score
  dsimp only
  rw [show min (pd.budget / 1000000) 1 * 0.25 + min ((pd.timeline_days : ℚ) / 365) 1 * 0.25 +
      pd.complexity_score * 0.35 + min ((pd.dependencies.length : ℚ) / 10) 1 * 0.15 =
      0.25 * min (pd.budget / 1000000) 1 + 0.25 * min ((pd.timeline_days : ℚ) / 365) 1 +
      0.35 * pd.complexity_score + 0.15 * min ((pd.dependencies.length : ℚ) / 10) 1 from by
    ring]
  exact clamp_eq _

/-! ## Claim C10 -/

/-- C10: for every `ProjectData` that passes validation, the shared
confidence helper returns at least 0.8, exactly 0.8 when `historical_risks`
is absent or empty, exactly 1 when it is non-empty, and each of the three
concrete sector scorers reports that same confidence, hence at least 0.8. -/
theorem C10_confidence_of_valid (pd : ProjectData)
    (hv : validate_project_data pd = []) :
    0.8 ≤ calculate_confidence_score pd ∧
    ((pd.historical_risks = none ∨ pd.historical_risks = some []) →
      calculate_confidence_score pd = 0.8) ∧
    (∀ r rs, pd.historical_risks = some (r :: rs) → calculate_confidence_score pd = 1) ∧
    (∀ s cfg, (NetworkInfrastructure.assess_risk s cfg pd).confidence =
      calculate_confidence_score pd) ∧
    (∀ s cfg, (Cybersecurity.assess_risk s cfg pd).confidence =
      calculate_confidence_score pd) ∧
    (∀ s cfg, (RegulatoryCompliance.assess_risk s cfg pd).confidence =
      calculate_confidence_score pd) := by
  obtain ⟨hid, hdesc, hbud, htl, hcx, htech, hstk⟩ := (validate_eq_nil_iff pd).mp hv
  have hconf : calculate_confidence_score pd =
      0.8 + (if truthyOpt pd.historical_risks then (0.2 : ℚ) else 0) := by
    unfold calculate_confidence_score
    rw [if_pos hdesc, if_pos hbud, if_pos htl,
      if_pos (by simp [List.isEmpty_iff, htech] : (!pd.technologies.isEmpty) = true)]
    ring
  refine ⟨?_, ?_, ?_, fun s cfg => rfl, fun s cfg => rfl, fun s cfg => rfl⟩
  · rw [hconf]
    split_ifs <;> norm_num
  · intro hnone
    rw [hconf]
    rcases hnone with h | h <;> simp [truthyOpt, h]
  · intro r rs hsome
    rw [hconf]
    simp [truthyOpt, hsome]
    norm_num

/-- A small valid sample project, used to instantiate hypotheses in
witnesses. -/
def sample_valid_project : ProjectData :=
  { project_id := "P1", sector_id := "cybersecurity", description := "firewall rollout"
    budget := 100000, timeline_days := 90, complexity_score := 1
    stakeholders := ["ops"], technologies := ["firewall"], dependencies := [] }

theorem sample_valid_project_valid : validate_project_data sample_valid_project = [] := by
  simp [validate_project_data, sample_valid_project]

/-- Witness for C10 at a concrete valid project. -/
theorem C10_confidence_of_valid_witness :
    validate_project_data sample_valid_project = [] ∧
    0.8 ≤ calculate_confidence_score sample_valid_project :=
  ⟨sample_valid_project_valid,
   (C10_confidence_of_valid _ sample_valid_project_valid).1⟩

/-! ## Claim C5 -/

/-- The sum of the configured sector weights of a risk manager. -/
def configured_weight_sum (rm : RiskManager) : ℚ :=
  (rm.sectors.map (fun e => e.2.weight)).sum

/-- C5: under a configuration whose weights sum to 1.0 plus or minus 0.05,
the overall risk of a singleton assessment mapping whose sector is
configured with positive weight and whose risk level is at most 1 is that
risk level itself. -/
theorem C5_singleton_overall_risk (rm : RiskManager) (sid : String)
    (a : RiskAssessment) (sec : Sector)
    (hsum_lo : 0.95 ≤ configured_weight_sum rm)
    (hsum_hi : configured_weight_sum rm ≤ 1.05)
    (hfind : dictFind rm.sectors sid = some sec)
    (hw : 0 < sec.weight) (hr : a.risk_level ≤ 1) :
    calculate_overall_risk rm [(sid, a)] = a.risk_level := by
  rw [calculate_overall_risk_eq]
  rw [show (([(sid, a)] : List (String × RiskAssessment)).isEmpty) = false from rfl]
  dsimp only
  rw [List.foldl_cons, List.foldl_nil]
  unfold overall_step
  rw [hfind]
  dsimp only
  rw [if_pos (by linarith : (0 : ℚ) + sec.weight > 0)]
  rw [zero_add, zero_add, mul_div_assoc, div_self (ne_of_gt hw), mul_one]
  exact min_eq_left hr

/-- Witness for C5: a one-sector manager of weight 1 with a risk level of
zero. -/
theorem C5_singleton_overall_risk_witness :
    (0.95 : ℚ) ≤ configured_weight_sum
      ⟨[("s", ⟨"s", "S", 1, [], fun _ => .error "boom", fun _ => []⟩)]⟩ ∧
    configured_weight_sum
      ⟨[("s", ⟨"s", "S", 1, [], fun _ => .error "boom", fun _ => []⟩)]⟩ ≤ 1.05 ∧
    dictFind (RiskManager.sectors
        ⟨[("s", ⟨"s", "S", 1, [], fun _ => .error "boom", fun _ => []⟩)]⟩) "s" =
      some ⟨"s", "S", 1, [], fun _ => .error "boom", fun _ => []⟩ ∧
    (0 : ℚ) < 1 ∧ (0 : ℚ) ≤ 1 ∧
    calculate_overall_risk
      ⟨[("s", ⟨"s", "S", 1, [], fun _ => .error "boom", fun _ => []⟩)]⟩
      [("s", ⟨"s", 0, [], [], 0⟩)] =
      (⟨"s", 0, [], [], 0⟩ : RiskAssessment).risk_level := by
  refine ⟨?_, ?_, rfl, ?_, ?_, ?_⟩
  · simp [configured_weight_sum]
    norm_num
  · simp [configured_weight_sum]
    norm_num
  · norm_num
  · norm_num
  · exact C5_singleton_overall_risk _ "s" _ _
      (by simp [configured_weight_sum]; norm_num)
      (by simp [configured_weight_sum]; norm_num)
      rfl (by norm_num) (by norm_num)

/-! ## Claim C4 -/

/-- The configured weight the aggregator uses for an assessed sector id:
zero when the id is unknown. -/
def weight_of (rm : RiskManager) (s : String) : ℚ :=
  match dictFind rm.sectors s with
  | some sec => sec.weight
  | none => 0

/-- The overall risk as §4.3 of the spec words it: the weighted average of
`risk_level` over the assessments, 0.5 when the mapping is empty or the
total weight is zero, clamped to at most 1.  This definition follows the
SPEC text; `calculate_overall_risk` follows the source. -/
def spec_overall_risk (rm : RiskManager)
    (ras : List (String × RiskAssessment)) : ℚ :=
  let total_weight := (ras.map (fun e => weight_of rm e.1)).sum
  let weighted := (ras.map (fun e => e.2.risk_level * weight_of rm e.1)).sum
  if ras = [] ∨ total_weight = 0 then 0.5 else min (weighted / total_weight) 1

/-- The pair accumulated by `calculate_overall_risk` is the pair of spec
sums. -/
theorem overall_fold_eq_sums (rm : RiskManager) :
    ∀ (l : List (String × RiskAssessment)) (init : ℚ × ℚ),
      l.foldl (overall_step rm) init =
        (init.1 + (l.map (fun e => e.2.risk_level * weight_of rm e.1)).sum,
         init.2 + (l.map (fun e => weight_of rm e.1)).sum) := by
  intro l
  induction l with
  | nil =>
    intro init
    simp
  | cons e t ih =>
    intro init
    rw [List.foldl_cons, ih]
    have hstep : overall_step rm init e =
        (init.1 + e.2.risk_level * weight_of rm e.1, init.2 + weight_of rm e.1) := by
      unfold overall_step weight_of
      cases hfind : dictFind rm.sectors e.1 with
      | none => simp
      | some sec => rfl
    rw [hstep]
    simp only [List.map_cons, List.sum_cons]
    refine Prod.ext ?_ ?_ <;> dsimp only <;> ring

/-- C4: `calculate_overall_risk` is the spec-side weighted average with the
0.5 defaults, and (for positive configured weights) the total weight is zero
exactly when no assessed sector id matches a configured sector. -/
theorem C4_overall_risk_spec (rm : RiskManager) (ras : List (String × RiskAssessment))
    (hw : ∀ s sec, dictFind rm.sectors s = some sec → 0 < sec.weight) :
    calculate_overall_risk rm ras = spec_overall_risk rm ras ∧
    ((ras.map (fun e => weight_of rm e.1)).sum = 0 ↔
      ∀ e ∈ ras, dictFind rm.sectors e.1 = none) := by
  have hwnonneg : ∀ s, 0 ≤ weight_of rm s := by
    intro s
    unfold weight_of
    cases hfind : dictFind rm.sectors s with
    | none => exact le_refl 0
    | some sec => exact le_of_lt (hw s sec hfind)
  have hterm : ∀ e ∈ ras, (0 : ℚ) ≤ weight_of rm e.1 := fun e _ => hwnonneg e.1
  have hmem : ∀ x ∈ ras.map (fun e => weight_of rm e.1), (0 : ℚ) ≤ x := by
    intro x hx
    rcases List.mem_map.mp hx with ⟨e, he, hex⟩
    rw [← hex]
    exact hwnonneg e.1
  have hzero : (ras.map (fun e => weight_of rm e.1)).sum = 0 ↔
      ∀ e ∈ ras, dictFind rm.sectors e.1 = none := by
    rw [sum_nonneg_eq_zero hmem]
    constructor
    · intro hall e he
      have := hall (weight_of rm e.1) (List.mem_map.mpr ⟨e, he, rfl⟩)
      unfold weight_of at this
      cases hfind : dictFind rm.sectors e.1 with
      | none => rfl
      | some sec =>
        rw [hfind] at this
        exact absurd this (ne_of_gt (hw e.1 sec hfind))
    · intro hall x hx
      rcases List.mem_map.mp hx with ⟨e, he, hex⟩
      rw [← hex]
      unfold weight_of
      rw [hall e he]
  refine ⟨?_, hzero⟩
  rw [calculate_overall_risk_eq]
  unfold spec_overall_risk
  dsimp only
  rw [overall_fold_eq_sums rm ras ((0 : ℚ), (0 : ℚ))]
  dsimp only
  rw [zero_add, zero_add]
  by_cases hempty : ras = []
  · subst hempty
    simp
  · rw [if_neg (by simpa [List.isEmpty_iff] using hempty)]
    have hsnn : 0 ≤ (ras.map (fun e => weight_of rm e.1)).sum := List.sum_nonneg hmem
    by_cases hpos : (ras.map (fun e => weight_of rm e.1)).sum > 0
    · rw [if_pos hpos, if_neg (by push_neg; exact ⟨hempty, ne_of_gt hpos⟩)]
    · have h0 : (ras.map (fun e => weight_of rm e.1)).sum = 0 := le_antisymm (not_lt.mp hpos) hsnn
      rw [if_neg hpos, if_pos (Or.inr h0)]

/-- Witness for C4 at a one-sector manager and a singleton mapping. -/
theorem C4_overall_risk_spec_witness :
    (∀ s sec, dictFind (RiskManager.sectors
        ⟨[("s", ⟨"s", "S", 1, [], fun _ => .error "boom", fun _ => []⟩)]⟩) s = some sec →
      0 < sec.weight) ∧
    calculate_overall_risk ⟨[("s", ⟨"s", "S", 1, [], fun _ => .error "boom", fun _ => []⟩)]⟩
        [("s", ⟨"s", 0, [], [], 0⟩)] =
      spec_overall_risk ⟨[("s", ⟨"s", "S", 1, [], fun _ => .error "boom", fun _ => []⟩)]⟩
        [("s", ⟨"s", 0, [], [], 0⟩)] := by
  have hw : ∀ s sec, dictFind (RiskManager.sectors
      ⟨[("s", ⟨"s", "S", 1, [], fun _ => .error "boom", fun _ => []⟩)]⟩) s = some sec →
      0 < sec.weight := by
    intro s sec hfind
    simp only [dictFind] at hfind
    split at hfind
    · cases hfind
      norm_num
    · cases hfind
  exact ⟨hw, (C4_overall_risk_spec _ _ hw).1⟩

/-! ## Claim C2 -/

/-- C2: for project data violating any validation rule, `assess_project`
fails — for EVERY risk manager, i.e. regardless of any scorer behaviour, so
no scorer can have been consulted — with the combined message, and the issue
list contains the message of each violated field and only those. -/
theorem C2_validation_failure (rm : RiskManager) (pd : ProjectData)
    (f : Option (List String))
    (hbad : pd.project_id = "" ∨ pd.description = "" ∨ pd.budget ≤ 0 ∨
      pd.timeline_days ≤ 0 ∨ ¬ (0 ≤ pd.complexity_score ∧ pd.complexity_score ≤ 1) ∨
      pd.technologies = [] ∨ pd.stakeholders = []) :
    assess_project rm pd f =
      .error ("Project data validation failed: " ++
        String.intercalate "; " (validate_project_data pd)) ∧
    (pd.project_id = "" ↔ "Project ID is required" ∈ validate_project_data pd) ∧
    (pd.description = "" ↔ "Project description is required" ∈ validate_project_data pd) ∧
    (pd.budget ≤ 0 ↔ "Project budget must be greater than 0" ∈ validate_project_data pd) ∧
    (pd.timeline_days ≤ 0 ↔
      "Project timeline must be greater than 0 days" ∈ validate_project_data pd) ∧
    (¬ (0 ≤ pd.complexity_score ∧ pd.complexity_score ≤ 1) ↔
      "Complexity score must be between 0.0 and 1.0" ∈ validate_project_data pd) ∧
    (pd.technologies = [] ↔
      "At least one technology should be specified" ∈ validate_project_data pd) ∧
    (pd.stakeholders = [] ↔
      "At least one stakeholder should be specified" ∈ validate_project_data pd) := by
  have hne : validate_project_data pd ≠ [] := by
    intro h0
    obtain ⟨h1, h2, h3, h4, h5, h6, h7⟩ := (validate_eq_nil_iff pd).mp h0
    rcases hbad with h | h | h | h | h | h | h
    · exact h1 h
    · exact h2 h
    · linarith
    · omega
    · exact h h5
    · exact h6 h
    · exact h7 h
  constructor
  · unfold assess_project
    rw [if_neg (by simpa [List.isEmpty_iff] using hne)]
  refine ⟨?_, ?_, ?_, ?_, ?_, ?_, ?_⟩ <;>
    simp [validate_project_data, List.mem_append, mem_ite_singleton, List.isEmpty_iff]

/-- Witness for C2: an entirely invalid project. -/
theorem C2_validation_failure_witness :
    ((Eq (α := String) "" "" ∨ ("" : String) = "" ∨ (0 : ℚ) ≤ 0 ∨ (0 : ℤ) ≤ 0 ∨
      ¬ ((0 : ℚ) ≤ 2 ∧ (2 : ℚ) ≤ 1) ∨ ([] : List String) = [] ∨ ([] : List String) = [])) ∧
    assess_project ⟨[]⟩
      { project_id := "", sector_id := "", description := "", budget := 0
        timeline_days := 0, complexity_score := 2, stakeholders := []
        technologies := [], dependencies := [] } none =
      .error ("Project data validation failed: " ++
        String.intercalate "; " (validate_project_data
          { project_id := "", sector_id := "", description := "", budget := 0
            timeline_days := 0, complexity_score := 2, stakeholders := []
            technologies := [], dependencies := [] })) :=
  ⟨Or.inl rfl,
   (C2_validation_failure ⟨[]⟩ _ none (Or.inl rfl)).1⟩

/-! ## Claim C3 -/

/-- C3: when a requested sector scorer raises, the aggregator stores the
fallback assessment for that sector (risk 0.5, the single factor
"Assessment error occurred", confidence 0.1) instead of propagating the
error — `assess_project_risk` is a total function into assessment
dictionaries — and every other requested sector whose scorer succeeds is
still mapped to its own assessment. -/
theorem C3_fallback_on_scorer_error (rm : RiskManager) (pd : ProjectData)
    (ids : List String) (sid : String) (sec : Sector) (e : String)
    (hfind : dictFind rm.sectors sid = some sec)
    (herr : sec.assess_risk pd = .error e) (hmem : sid ∈ ids) :
    dictFind (assess_project_risk rm pd (some ids)) sid =
      some (create_fallback_assessment sec) ∧
    (create_fallback_assessment sec).risk_level = 0.5 ∧
    (create_fallback_assessment sec).risk_factors = ["Assessment error occurred"] ∧
    (create_fallback_assessment sec).confidence = 0.1 ∧
    (∀ sid' sec' a', sid' ∈ ids → dictFind rm.sectors sid' = some sec' →
      sec'.assess_risk pd = .ok a' →
      dictFind (assess_project_risk rm pd (some ids)) sid' = some a') := by
  refine ⟨?_, rfl, rfl, rfl, ?_⟩
  · rw [dictFind_assess_project_risk, if_pos hmem]
    unfold sector_assess_value
    rw [hfind]
    simp [herr]
  · intro sid' sec' a' hmem' hfind' hok
    rw [dictFind_assess_project_risk, if_pos hmem']
    unfold sector_assess_value
    rw [hfind']
    simp [hok]

/-- Witness for C3: a two-sector manager where one scorer raises and the
other succeeds. -/
theorem C3_fallback_on_scorer_error_witness :
    dictFind (RiskManager.sectors
        ⟨[("bad", ⟨"bad", "Bad", 1, [], fun _ => .error "boom", fun _ => []⟩),
          ("good", ⟨"good", "Good", 1, [], fun _ => .ok ⟨"good", 0, [], [], 1⟩,
            fun _ => []⟩)]⟩) "bad" =
      some ⟨"bad", "Bad", 1, [], fun _ => .error "boom", fun _ => []⟩ ∧
    (Sector.assess_risk ⟨"bad", "Bad", 1, [], fun _ => .error "boom", fun _ => []⟩
      sample_valid_project = .error "boom") ∧
    ("bad" ∈ (["bad", "good"] : List String)) ∧
    dictFind (assess_project_risk
        ⟨[("bad", ⟨"bad", "Bad", 1, [], fun _ => .error "boom", fun _ => []⟩),
          ("good", ⟨"good", "Good", 1, [], fun _ => .ok ⟨"good", 0, [], [], 1⟩,
            fun _ => []⟩)]⟩ sample_valid_project (some ["bad", "good"])) "bad" =
      some (create_fallback_assessment
        ⟨"bad", "Bad", 1, [], fun _ => .error "boom", fun _ => []⟩) := by
  refine ⟨rfl, rfl, by simp, ?_⟩
  exact (C3_fallback_on_scorer_error
    ⟨[("bad", ⟨"bad", "Bad", 1, [], fun _ => .error "boom", fun _ => []⟩),
      ("good", ⟨"good", "Good", 1, [], fun _ => .ok ⟨"good", 0, [], [], 1⟩,
        fun _ => []⟩)]⟩
    sample_valid_project ["bad", "good"] "bad"
    ⟨"bad", "Bad", 1, [], fun _ => .error "boom", fun _ => []⟩ "boom"
    rfl rfl (by simp)).1

/-! ## Claim C1 -/

/-- Every sector of a manager built from a configuration with positive
weights has positive weight. -/
theorem mkRiskManager_weight_pos (cfgs : List (String × SectorConfig))
    (hwpos : ∀ e ∈ cfgs, 0 < e.2.weight) :
    ∀ s sec, dictFind (mkRiskManager cfgs).sectors s = some sec → 0 < sec.weight := by
  intro s sec hfind
  rw [dictFind_mkRiskManager] at hfind
  cases hcfg : dictFind cfgs s with
  | none => rw [hcfg] at hfind; simp at hfind
  | some c =>
    rw [hcfg] at hfind
    simp only [Option.map_some', Option.some.injEq] at hfind
    rw [← hfind, mkSector_weight]
    exact hwpos (s, c) (dictFind_mem hcfg)

/-- Every assessment stored for a valid project by a manager built from a
positively weighted configuration has a risk level in `[0, 1]`. -/
theorem mkRiskManager_assessment_bounds (cfgs : List (String × SectorConfig))
    (pd : ProjectData) (o : Option (List String))
    (hwpos : ∀ e ∈ cfgs, 0 < e.2.weight)
    (hc : 0 ≤ pd.complexity_score) (ht : 0 ≤ pd.timeline_days) :
    ∀ e ∈ assess_project_risk (mkRiskManager cfgs) pd o,
      0 ≤ e.2.risk_level ∧ e.2.risk_level ≤ 1 := by
  intro e he
  obtain ⟨sec, hfind, hcase⟩ := mem_assess_project_risk (mkRiskManager cfgs) pd o e he
  rw [dictFind_mkRiskManager] at hfind
  cases hcfg : dictFind cfgs e.1 with
  | none => rw [hcfg] at hfind; simp at hfind
  | some c =>
    rw [hcfg] at hfind
    simp only [Option.map_some', Option.some.injEq] at hfind
    have hcw : 0 ≤ c.weight := le_of_lt (hwpos (e.1, c) (dictFind_mem hcfg))
    rcases hcase with ⟨ra, hok, hra⟩ | hfb
    · rw [hra]
      rw [← hfind] at hok
      exact mkSector_risk_level_bounds e.1 c pd ra hcw hc ht hok
    · rw [hfb, create_fallback_risk_level]
      norm_num

/-- C1: for every valid project, every configuration with positive sector
weights summing to 1.0 plus or minus 0.05, and any sector filter,
`assess_project` succeeds with a report whose `overall_risk` lies in
`[0, 1]` and whose `risk_category` is one of the five labels, derived from
`overall_risk` by the fixed thresholds (0.8, 0.6, 0.4, 0.2). -/
theorem C1_report_bounds_and_category (cfgs : List (String × SectorConfig))
    (pd : ProjectData) (f : Option (List String))
    (hwpos : ∀ e ∈ cfgs, 0 < e.2.weight)
    (hsum_lo : 0.95 ≤ (cfgs.map (fun e => e.2.weight)).sum)
    (hsum_hi : (cfgs.map (fun e => e.2.weight)).sum ≤ 1.05)
    (hv : validate_project_data pd = []) :
    ∃ rep, assess_project (mkRiskManager cfgs) pd f = .ok rep ∧
      0 ≤ rep.overall_risk ∧ rep.overall_risk ≤ 1 ∧
      rep.risk_category ∈ (["CRITICAL", "HIGH", "MEDIUM", "LOW", "MINIMAL"] : List String) ∧
      rep.risk_category =
        (if rep.overall_risk ≥ 0.8 then "CRITICAL"
         else if rep.overall_risk ≥ 0.6 then "HIGH"
         else if rep.overall_risk ≥ 0.4 then "MEDIUM"
         else if rep.overall_risk ≥ 0.2 then "LOW"
         else "MINIMAL") := by
  obtain ⟨hid, hdesc, hbud, htl, hcx, htech, hstk⟩ := (validate_eq_nil_iff pd).mp hv
  unfold assess_project
  rw [if_pos (by simp [hv] : (validate_project_data pd).isEmpty = true)]
  refine ⟨_, rfl, ?_, ?_, ?_, ?_⟩
  all_goals
    have hbounds := calculate_overall_risk_bounds (mkRiskManager cfgs)
      (assess_project_risk (mkRiskManager cfgs) pd
        (some (identify_relevant_sectors pd f)))
      (fun e he => (mkRiskManager_assessment_bounds cfgs pd _ hwpos hcx.1
        (le_of_lt htl) e he).1)
      (fun s sec hfind => le_of_lt (mkRiskManager_weight_pos cfgs hwpos s sec hfind))
  · exact hbounds.1
  · exact hbounds.2
  · show categorize_risk _ ∈ _
    unfold categorize_risk
    split_ifs <;> simp
  · rfl

/-- Witness for C1: a one-sector configuration of weight 1 and the valid
sample project. -/
theorem C1_report_bounds_and_category_witness :
    (∀ e ∈ ([("cybersecurity", ⟨"Cybersecurity", "cyber", ["Insider threats"], 1⟩)] :
        List (String × SectorConfig)), 0 < e.2.weight) ∧
    (0.95 : ℚ) ≤ (([("cybersecurity",
        ⟨"Cybersecurity", "cyber", ["Insider threats"], 1⟩)] :
        List (String × SectorConfig)).map (fun e => e.2.weight)).sum ∧
    (([("cybersecurity", ⟨"Cybersecurity", "cyber", ["Insider threats"], 1⟩)] :
        List (String × SectorConfig)).map (fun e => e.2.weight)).sum ≤ 1.05 ∧
    validate_project_data sample_valid_project = [] ∧
    ∃ rep, assess_project
        (mkRiskManager [("cybersecurity",
          ⟨"Cybersecurity", "cyber", ["Insider threats"], 1⟩)])
        sample_valid_project none = .ok rep ∧
      0 ≤ rep.overall_risk ∧ rep.overall_risk ≤ 1 ∧
      rep.risk_category ∈ (["CRITICAL", "HIGH", "MEDIUM", "LOW", "MINIMAL"] : List String) ∧
      rep.risk_category =
        (if rep.overall_risk ≥ 0.8 then "CRITICAL"
         else if rep.overall_risk ≥ 0.6 then "HIGH"
         else if rep.overall_risk ≥ 0.4 then "MEDIUM"
         else if rep.overall_risk ≥ 0.2 then "LOW"
         else "MINIMAL") := by
  refine ⟨?_, ?_, ?_, sample_valid_project_valid, ?_⟩
  · intro e he
    simp only [List.mem_singleton] at he
    rw [he]
    norm_num
  · norm_num
  · norm_num
  · exact C1_report_bounds_and_category
      [("cybersecurity", ⟨"Cybersecurity", "cyber", ["Insider threats"], 1⟩)]
      sample_valid_project none
      (by intro e he; simp only [List.mem_singleton] at he; rw [he]; norm_num)
      (by norm_num) (by norm_num) sample_valid_project_valid

/-! ## Claim C6 -/

/-- The descending-by-risk comparison used by the two rankings. -/
def riskGE (x y : String × String × ℚ) : Bool :=
  decide (y.2.2 ≤ x.2.2)

theorem riskGE_trans (a b c : String × String × ℚ) :
    riskGE a b → riskGE b c → riskGE a c := by
  unfold riskGE
  intro h1 h2
  exact decide_eq_true (le_trans (of_decide_eq_true h2) (of_decide_eq_true h1))

theorem riskGE_total (a b : String × String × ℚ) : riskGE a b || riskGE b a := by
  unfold riskGE
  rcases le_total a.2.2 b.2.2 with h | h
  · simp [h]
  · simp [h]

theorem sortByRiskDesc_eq (l : List (String × String × ℚ)) :
    sortByRiskDesc l = l.mergeSort riskGE := rfl

/-- The flattening loops of the two rankings are flat-maps. -/
theorem foldl_append_eq_flatMap {α β : Type} (g : α → List β) :
    ∀ (l : List α) (init : List β),
      l.foldl (fun acc e => acc ++ g e) init = init ++ l.flatMap g := by
  intro l
  induction l with
  | nil =>
    intro init
    simp
  | cons e t ih =>
    intro init
    rw [List.foldl_cons, ih, List.flatMap_cons, List.append_assoc]

/-- The triple a ranked entry is drawn from. -/
def triple_source (rm : RiskManager) (e : String × RiskAssessment) :
    List (String × String × ℚ) :=
  match dictFind rm.sectors e.1 with
  | some sec => e.2.risk_factors.map (fun f => (f, sec.name, e.2.risk_level))
  | none => []

theorem all_risk_triples_eq_flatMap (rm : RiskManager)
    (ras : List (String × RiskAssessment)) :
    all_risk_triples rm ras = ras.flatMap (triple_source rm) := by
  unfold all_risk_triples
  have hstep : ∀ (acc : List (String × String × ℚ)) (e : String × RiskAssessment),
      (match dictFind rm.sectors e.1 with
       | some sec => acc ++ e.2.risk_factors.map (fun f => (f, sec.name, e.2.risk_level))
       | none => acc) = acc ++ triple_source rm e := by
    intro acc e
    unfold triple_source
    cases dictFind rm.sectors e.1 with
    | none => simp
    | some sec => rfl
  calc ras.foldl (fun acc e =>
        match dictFind rm.sectors e.1 with
        | some sec => acc ++ e.2.risk_factors.map (fun f => (f, sec.name, e.2.risk_level))
        | none => acc) [] =
      ras.foldl (fun acc e => acc ++ triple_source rm e) [] := by
        congr 1
        funext acc e
        exact hstep acc e
  _ = [] ++ ras.flatMap (triple_source rm) := foldl_append_eq_flatMap _ ras []
  _ = ras.flatMap (triple_source rm) := List.nil_append _

/-- A stably sorted-descending truncation keeps, for each risk value, a
prefix of the original subsequence of that value. -/
theorem take_mergeSort_filter_isPre (l : List (String × String × ℚ)) (limit : ℕ)
    (p : String × String × ℚ → Bool)
    (hp : ∀ x y, p x → p y → riskGE x y) :
    ((l.mergeSort riskGE).take limit).filter p <+: l.filter p := by
  have hpair : (l.filter p).Pairwise (fun a b => riskGE a b) := by
    refine List.pairwise_of_forall_mem_list ?_
    intro a ha b hb
    exact hp a b (List.mem_filter.mp ha).2 (List.mem_filter.mp hb).2
  have hsub : List.Sublist (l.filter p) (l.mergeSort riskGE) :=
    List.sublist_mergeSort riskGE_trans riskGE_total hpair (List.filter_sublist l)
  have hsub2 : List.Sublist ((l.filter p).filter p) ((l.mergeSort riskGE).filter p) :=
    hsub.filter p
  rw [List.filter_filter, show (fun a => p a && p a) = p from funext fun a => Bool.and_self _]
    at hsub2
  have hperm : List.Perm ((l.mergeSort riskGE).filter p) (l.filter p) :=
    (List.mergeSort_perm l riskGE).filter p
  have hlen : ((l.mergeSort riskGE).filter p).length = (l.filter p).length :=
    hperm.length_eq
  have heq : (l.filter p) = (l.mergeSort riskGE).filter p :=
    hsub2.eq_of_length hlen.symm
  have hpre : ((l.mergeSort riskGE).take limit).filter p <+:
      (l.mergeSort riskGE).filter p :=
    List.IsPrefix.filter p ( List.take_prefix limit (l.mergeSort riskGE))
  rw [← heq] at hpre
  exact hpre

/-- C6: the top-risk-factor list is the descending stable ranking of the
flattened (factor, sector name, risk level) triples, truncated to `limit`:
it is sorted descending by risk level, has at most `limit` entries, and for
every risk value its entries of that value form a prefix of the flattened
triples of that value (stability: ties keep their original relative order);
the priority-recommendation list satisfies the same descending order and
length cap. -/
theorem C6_rankings_sorted_capped_stable (rm : RiskManager)
    (ras : List (String × RiskAssessment)) (limit : ℕ) :
    (all_risk_triples rm ras = ras.flatMap (triple_source rm)) ∧
    (get_top_risk_factors rm ras limit).Pairwise (fun x y => y.2.2 ≤ x.2.2) ∧
    (get_top_risk_factors rm ras limit).length ≤ limit ∧
    (∀ v : ℚ, (get_top_risk_factors rm ras limit).filter (fun t => decide (t.2.2 = v)) <+:
      (all_risk_triples rm ras).filter (fun t => decide (t.2.2 = v))) ∧
    (get_priority_recommendations rm ras limit).Pairwise (fun x y => y.2.2 ≤ x.2.2) ∧
    (get_priority_recommendations rm ras limit).length ≤ limit := by
  have hsorted : ∀ l : List (String × String × ℚ),
      ((l.mergeSort riskGE).take limit).Pairwise (fun x y => y.2.2 ≤ x.2.2) := by
    intro l
    have h1 : (l.mergeSort riskGE).Pairwise (fun a b => riskGE a b) :=
      List.sorted_mergeSort riskGE_trans riskGE_total l
    have h2 : (l.mergeSort riskGE).Pairwise (fun x y => y.2.2 ≤ x.2.2) :=
      h1.imp (fun h => of_decide_eq_true h)
    exact h2.sublist (List.take_sublist limit _)
  refine ⟨all_risk_triples_eq_flatMap rm ras, ?_, ?_, ?_, ?_, ?_⟩
  · exact hsorted _
  · exact List.length_take_le _ _
  · intro v
    exact take_mergeSort_filter_isPre _ limit _ (fun x y hx hy => by
      unfold riskGE
      have hxv : x.2.2 = v := of_decide_eq_true hx
      have hyv : y.2.2 = v := of_decide_eq_true hy
      exact decide_eq_true (le_of_eq (hyv.trans hxv.symm)))
  · exact hsorted _
  · exact List.length_take_le _ _

/-! ## Claim C8 -/

/-- The mandatory-sector loop preserves membership. -/
theorem mem_mandatory_fold_of_mem (mand : List String) :
    ∀ (r : List String) (x : String), x ∈ r →
      x ∈ mand.foldl (fun r s => if s ∈ r then r else r ++ [s]) r := by
  induction mand with
  | nil =>
    intro r x hx
    exact hx
  | cons m rest ih =>
    intro r x hx
    rw [List.foldl_cons]
    refine ih _ x ?_
    split
    · exact hx
    · exact List.mem_append_left _ hx

/-- The mandatory-sector loop adds every mandatory sector. -/
theorem mandatory_mem_fold (mand : List String) :
    ∀ (r : List String) (s : String), s ∈ mand →
      s ∈ mand.foldl (fun r s => if s ∈ r then r else r ++ [s]) r := by
  induction mand with
  | nil =>
    intro r s hs
    simp at hs
  | cons m rest ih =>
    intro r s hs
    rw [List.foldl_cons]
    rcases List.mem_cons.mp hs with h | h
    · subst h
      refine mem_mandatory_fold_of_mem rest _ s ?_
      split
      · assumption
      · exact List.mem_append_right _ (List.mem_singleton_self s)
    · exact ih _ s h

/-- Everything the mandatory-sector loop returns was present or mandatory. -/
theorem mem_mandatory_fold_cases (mand : List String) :
    ∀ (r : List String) (x : String),
      x ∈ mand.foldl (fun r s => if s ∈ r then r else r ++ [s]) r →
      x ∈ r ∨ x ∈ mand := by
  induction mand with
  | nil =>
    intro r x hx
    exact Or.inl hx
  | cons m rest ih =>
    intro r x hx
    rw [List.foldl_cons] at hx
    rcases ih _ x hx with h | h
    · revert h
      split
      · intro h
        exact Or.inl h
      · intro h
        rcases List.mem_append.mp h with h' | h'
        · exact Or.inl h'
        · exact Or.inr (List.mem_cons.mpr (Or.inl (List.mem_singleton.mp h')))
    · exact Or.inr (List.mem_cons_of_mem m h)

/-- Membership in the scored-sector list means a keyword-table entry with
that (positive) relevance score. -/
theorem mem_scored_sectors (pd : ProjectData) (e : String × ℕ)
    (he : e ∈ scored_sectors pd) :
    ∃ kws, (e.1, kws) ∈ sector_keywords ∧ e.2 = relevance_score pd kws ∧ 0 < e.2 := by
  unfold scored_sectors at he
  have hmem := List.mem_filter.mp he
  rcases List.mem_map.mp hmem.1 with ⟨ekw, hekw, heq⟩
  refine ⟨ekw.2, ?_, ?_, of_decide_eq_true hmem.2⟩
  · rw [← heq]
    exact hekw
  · rw [← heq]

/-- C8: with no sector filter, the relevance heuristic always includes the
two mandatory sectors, includes every sector of the 10-entry keyword table
scoring at least 3, includes the top three of the positively-scoring sectors
(descending stable order), and returns nothing else. -/
theorem C8_relevant_sector_identification (pd : ProjectData)
    (hv : validate_project_data pd = []) :
    ("cybersecurity" ∈ identify_relevant_sectors pd none ∧
      "regulatory_compliance" ∈ identify_relevant_sectors pd none) ∧
    (∀ sid kws, (sid, kws) ∈ sector_keywords → 3 ≤ relevance_score pd kws →
      sid ∈ identify_relevant_sectors pd none) ∧
    (∀ sid, sid ∈ ((sorted_scored_sectors pd).take 3).map Prod.fst →
      sid ∈ identify_relevant_sectors pd none) ∧
    (∀ sid, sid ∈ identify_relevant_sectors pd none →
      sid ∈ ((sorted_scored_sectors pd).take 3).map Prod.fst ∨
      (∃ kws, (sid, kws) ∈ sector_keywords ∧ 3 ≤ relevance_score pd kws) ∨
      sid ∈ (["cybersecurity", "regulatory_compliance"] : List String)) := by
  have hres : identify_relevant_sectors pd none = keyword_relevant_sectors pd := rfl
  rw [hres]
  unfold keyword_relevant_sectors
  dsimp only
  constructor
  · constructor
    · exact mandatory_mem_fold _ _ _ (by simp)
    · exact mandatory_mem_fold _ _ _ (by simp)
  refine ⟨?_, ?_, ?_⟩
  · intro sid kws hkin hscore
    have hmem0 : (sid, relevance_score pd kws) ∈ scored_sectors pd := by
      unfold scored_sectors
      refine List.mem_filter.mpr ⟨List.mem_map.mpr ⟨(sid, kws), hkin, rfl⟩, ?_⟩
      exact decide_eq_true (by omega)
    have hmem1 : (sid, relevance_score pd kws) ∈ sorted_scored_sectors pd := by
      unfold sorted_scored_sectors
      exact List.mem_mergeSort.mpr hmem0
    rw [← List.take_append_drop 3 (sorted_scored_sectors pd)] at hmem1
    refine mem_mandatory_fold_of_mem _ _ _ ?_
    rcases List.mem_append.mp hmem1 with h | h
    · exact List.mem_append_left _ (List.mem_map.mpr ⟨_, h, rfl⟩)
    · refine List.mem_append_right _ (List.mem_map.mpr ⟨(sid, relevance_score pd kws), ?_, rfl⟩)
      exact List.mem_filter.mpr ⟨h, decide_eq_true hscore⟩
  · intro sid hsid
    exact mem_mandatory_fold_of_mem _ _ _ (List.mem_append_left _ hsid)
  · intro sid hsid
    rcases mem_mandatory_fold_cases _ _ _ hsid with h | h
    · rcases List.mem_append.mp h with h' | h'
      · exact Or.inl h'
      · right
        left
        rcases List.mem_map.mp h' with ⟨e, he, heq⟩
        have hef := List.mem_filter.mp he
        have hein : e ∈ sorted_scored_sectors pd :=
          (List.drop_sublist 3 _).mem hef.1
        have hesc : e ∈ scored_sectors pd := by
          unfold sorted_scored_sectors at hein
          exact List.mem_mergeSort.mp hein
        rcases mem_scored_sectors pd e hesc with ⟨kws, hkin, hesc2, _⟩
        refine ⟨kws, by rw [← heq]; exact hkin, ?_⟩
        rw [← hesc2]
        exact of_decide_eq_true hef.2
    · exact Or.inr (Or.inr h)

/-- Witness for C8 at the valid sample project. -/
theorem C8_relevant_sector_identification_witness :
    validate_project_data sample_valid_project = [] ∧
    "cybersecurity" ∈ identify_relevant_sectors sample_valid_project none ∧
    "regulatory_compliance" ∈ identify_relevant_sectors sample_valid_project none :=
  ⟨sample_valid_project_valid,
   (C8_relevant_sector_identification _ sample_valid_project_valid).1.1,
   (C8_relevant_sector_identification _ sample_valid_project_valid).1.2⟩

/-! ## Claim C9 -/

/-- C9: an explicit empty sector filter is Python-falsy and therefore
equivalent to omitting the filter — the keyword heuristic runs, so (for a
valid project and a configuration that knows the mandatory `cybersecurity`
sector) the resulting report never has zero assessed sectors. -/
theorem C9_empty_filter_like_none (rm : RiskManager) (pd : ProjectData)
    (hv : validate_project_data pd = [])
    (hcyber : ∃ sec, dictFind rm.sectors "cybersecurity" = some sec) :
    identify_relevant_sectors pd (some []) = identify_relevant_sectors pd none ∧
    assess_project rm pd (some []) = assess_project rm pd none ∧
    ∀ rep, assess_project rm pd (some []) = .ok rep → rep.risk_assessments ≠ [] := by
  have h1 : identify_relevant_sectors pd (some []) = identify_relevant_sectors pd none := rfl
  refine ⟨h1, ?_, ?_⟩
  · unfold assess_project
    rw [h1]
  · intro rep hok
    unfold assess_project at hok
    rw [if_pos (by simp [hv])] at hok
    simp only [Except.ok.injEq] at hok
    have hmem : "cybersecurity" ∈ identify_relevant_sectors pd (some []) := by
      rw [h1]
      exact mandatory_mem_fold _ _ _ (by simp)
    intro hempty
    obtain ⟨sec, hfind⟩ := hcyber
    have hchar := dictFind_assess_project_risk rm pd
      (identify_relevant_sectors pd (some [])) "cybersecurity"
    rw [if_pos hmem] at hchar
    have hras : rep.risk_assessments =
        assess_project_risk rm pd (some (identify_relevant_sectors pd (some []))) := by
      rw [← hok]
    rw [← hras, hempty] at hchar
    rw [show dictFind ([] : List (String × RiskAssessment)) "cybersecurity" = none from rfl]
      at hchar
    unfold sector_assess_value at hchar
    rw [hfind] at hchar
    simp at hchar

/-- Witness for C9: a one-sector configuration that knows `cybersecurity`,
at the valid sample project. -/
theorem C9_empty_filter_like_none_witness :
    validate_project_data sample_valid_project = [] ∧
    (∃ sec, dictFind (mkRiskManager [("cybersecurity",
      ⟨"Cybersecurity", "cyber", ["Insider threats"], 1⟩)]).sectors
        "cybersecurity" = some sec) ∧
    identify_relevant_sectors sample_valid_project (some []) =
      identify_relevant_sectors sample_valid_project none :=
  ⟨sample_valid_project_valid, ⟨_, rfl⟩,
   (C9_empty_filter_like_none
     (mkRiskManager [("cybersecurity", ⟨"Cybersecurity", "cyber", ["Insider threats"], 1⟩)])
     sample_valid_project sample_valid_project_valid ⟨_, rfl⟩).1⟩
